import Mathlib

/-!
Shallow embedding of the GasTarbals/Client message-capture pipeline:
the arrival buffer (`listener/messager/storage.py`), the content
normalizer (`listener/parser/*.py`), the persistence engine
(`listener/database/*.py`) and the reply cache
(`listener/messager/comment.py`), together with theorems settling the
frozen claims about them.

Conventions: Python `datetime` values become `Int` timestamps, byte
strings become `List Nat`, `None` becomes `Option.none`, a raised
exception becomes the `Except.error` branch, and every database call is
modelled on a healthy connection (the query itself executes; what the
code does with the returned row set is taken from
`connectDB.execute_query`).
-/

/-! ## Arrival buffer (`listener/messager/storage.py`) -/

/-- A Telethon message as the buffer sees it: its id, the optional
media-group id (`grouped_id`) and its date. -/
structure TMsg where
  id : Nat
  groupedId : Option Nat
  date : Int
deriving DecidableEq, Repr

/-- `MessageStorage.add_message`: append to the deque; a
`deque(maxlen=maxSize)` discards the oldest elements when the append
overflows the capacity.  The queue is listed oldest first. -/
def addMessage (maxSize : Nat) (q : List TMsg) (m : TMsg) : List TMsg :=
  let q' := q ++ [m]
  q'.drop (q'.length - maxSize)

/-- The consumption step of `MessageStorage.wait_for_message` once the
queue is known non-empty: `first_msg = self._queue[-1]` followed by
`self._queue.remove(first_msg)` (which erases the first occurrence equal
to the last element). -/
def takeFirstMsg (q : List TMsg) : Option (TMsg × List TMsg) :=
  match q.getLast? with
  | none => none
  | some m => some (m, q.erase m)

/-- One scan of `_process_media_group`'s `for msg in list(self._queue)`
loop: every queued message whose `grouped_id` equals the group id is
appended to the group (in queue order) and removed from the queue. -/
def collectPass (g : Nat) (group : List TMsg) (q : List TMsg) :
    List TMsg × List TMsg :=
  match q with
  | [] => (group, [])
  | m :: rest =>
    if m.groupedId = some g then
      collectPass g (group ++ [m]) rest
    else
      let r := collectPass g group rest
      (r.1, m :: r.2)

/-- `_process_media_group`'s collection loop, discretised: each element
of `rounds` is the list of messages that were pushed into the queue
before the corresponding wake-up of the waiter; on each wake-up the
whole queue is scanned with `collectPass`. -/
def processMediaGroup (g : Nat) (group : List TMsg) (q : List TMsg) :
    List (List TMsg) → List TMsg × List TMsg
  | [] => (group, q)
  | arrivals :: rounds =>
    let r := collectPass g group (q ++ arrivals)
    processMediaGroup g r.1 r.2 rounds

/-- `_process_media_group(first_msg, ...)` as entered from
`wait_for_message`: the group starts as `[first_msg]`, the queue no
longer holds `first_msg`, and — because `wait_for_message` reached this
point with the new-data signal still set — the first wake-up of the
collection loop fires immediately, so there is always at least one scan
(the `[] ::` round). -/
def mediaGroupBatch (g : Nat) (firstMsg : TMsg) (q : List TMsg)
    (rounds : List (List TMsg)) : List TMsg × List TMsg :=
  processMediaGroup g [firstMsg] q ([] :: rounds)

/-! ### The push/wait signalling protocol as a transition system

State of `MessageStorage`: the deque, the `_waiters` counter and the
`_new_message_event` flag.  Each constructor of `BufStep` is one
lock-protected region of `storage.py`. -/

structure BufState where
  queue : List TMsg
  waiters : Nat
  signal : Bool
deriving DecidableEq, Repr

inductive BufStep (maxSize : Nat) : BufState → BufState → Prop where
  /-- `add_message`: append to the deque; set the event only when
  waiters are registered. -/
  | push (s : BufState) (m : TMsg) :
      BufStep maxSize s
        ⟨addMessage maxSize s.queue m, s.waiters,
         if 0 < s.waiters then true else s.signal⟩
  /-- `wait_for_message` entry: `self._waiters += 1`. -/
  | enter (s : BufState) :
      BufStep maxSize s ⟨s.queue, s.waiters + 1, s.signal⟩
  /-- `wait_for_message` woke up and found the queue empty: clear the
  event and return `None`. -/
  | observeEmpty (s : BufState) (h : s.queue = []) :
      BufStep maxSize s ⟨s.queue, s.waiters, false⟩
  /-- `wait_for_message` woke up with a non-empty queue: remove
  `queue[-1]`; the event is left as it is. -/
  | take (s : BufState) (m : TMsg) (rest : List TMsg)
      (h : takeFirstMsg s.queue = some (m, rest)) :
      BufStep maxSize s ⟨rest, s.waiters, s.signal⟩
  /-- One scan of `_process_media_group`: remove the same-group
  messages, then `if not self._queue: self._new_message_event.clear()`. -/
  | groupScan (s : BufState) (g : Nat) :
      BufStep maxSize s
        ⟨(collectPass g [] s.queue).2, s.waiters,
         if (collectPass g [] s.queue).2 = [] then false else s.signal⟩
  /-- The `finally` block of `wait_for_message`: decrement `_waiters`
  and clear the event when the count reaches zero. -/
  | exitWaiter (s : BufState) (h : 0 < s.waiters) :
      BufStep maxSize s
        ⟨s.queue, s.waiters - 1,
         if s.waiters - 1 = 0 then false else s.signal⟩
  /-- `clear()`: drop all buffered events and reset the event. -/
  | clearAll (s : BufState) :
      BufStep maxSize s ⟨[], s.waiters, false⟩

/-- The storage starts empty, with no waiters and a clear event. -/
def bufInit : BufState := ⟨[], 0, false⟩

/-- Reachability of a storage state through the push/wait protocol. -/
def BufReachable (maxSize : Nat) (s : BufState) : Prop :=
  Relation.ReflTransGen (BufStep maxSize) bufInit s

/-! ## Content normalizer (`listener/parser/content.py`, `text.py`)

A converter that raises is modelled by the `Except.error` branch; a
converter that returns `None` by `Option.none`. -/

/-- The media payload discriminator of a raw Telethon message:
`MessageMediaPhoto`, or `MessageMediaDocument` with its attribute flags
and mime type. -/
inductive MediaPayload where
  | photoMedia
  | documentMedia (hasVideoAttr hasAudioAttr hasAnimatedAttr : Bool)
      (mimeType : String)
deriving DecidableEq, Repr

/-- A raw message as the parser sees it. -/
structure RawParserMsg where
  id : Nat
  message : String
  media : Option MediaPayload
  groupedId : Option Nat
deriving DecidableEq, Repr

/-- `schema.text.TextMessage`, restricted to the fields the persistence
layer touches (`text`, and the `caption` attribute that only the DB
loader ever sets). -/
structure TextContent where
  text : String
  caption : Option String
deriving DecidableEq, Repr

/-- One `schema.photo.PhotoSize`. -/
structure PhotoSize where
  file_id : String
  file_unique_id : String
  width : Nat
  height : Nat
  file_size : Option Int
  image_data : Option (List Nat)
deriving DecidableEq, Repr

/-- `schema.photo.PhotoMessage`. -/
structure PhotoContent where
  photo : List PhotoSize
  caption : Option String
  is_animated : Bool
deriving DecidableEq, Repr

/-- `PhotoMessage.best_quality`: `max(self.photo, key=λx. x.width*x.height,
default=None)` — the first size of maximal pixel area, `none` on an
empty list. -/
def PhotoContent.best_quality (p : PhotoContent) : Option PhotoSize :=
  p.photo.foldl
    (fun acc s =>
      match acc with
      | none => some s
      | some cur =>
        if s.width * s.height > cur.width * cur.height then some s
        else some cur)
    none

/-- `schema.video.VideoThumbnail`, the field the DB layer reads. -/
structure VideoThumb where
  file_id : String
deriving DecidableEq, Repr

/-- `schema.video.VideoMessage`, restricted to the fields the
persistence layer touches. -/
structure VideoContent where
  file_id : String
  file_unique_id : String
  duration : Nat
  width : Nat
  height : Nat
  mime_type : Option String
  video_bytes : Option (List Nat)
  thumbnail : Option VideoThumb
  caption : Option String
  file_size : Option Int
deriving DecidableEq, Repr

/-- `schema.audio.AudioMessage`, restricted to the fields the
persistence layer touches. -/
structure AudioContent where
  file_id : String
  file_unique_id : String
  duration : Nat
  performer : Option String
  title : Option String
  mime_type : Option String
  file_size : Option Int
  thumbnail_url : Option String
deriving DecidableEq, Repr

/-- The tagged union of content items a normalized message may carry. -/
inductive Content where
  | text (t : TextContent)
  | photo (p : PhotoContent)
  | video (v : VideoContent)
  | audio (a : AudioContent)
deriving DecidableEq, Repr

/-- `TextConverter.convert` (`listener/parser/text.py`): raises
`ValueError` on an empty body, and pydantic validation of
`TextMessage(text=...)` raises when the text exceeds 4096 characters. -/
def TextConverter.convert (m : RawParserMsg) : Except String TextContent :=
  if m.message = "" then
    Except.error "Message does not contain text content"
  else if m.message.length > 4096 then
    Except.error "text validation failed"
  else
    Except.ok ⟨m.message, none⟩

/-- The converter dictionary injected into `ContentAnalyzer.__init__`.
The media converters return `none` for "no content" and `Except.error`
for a raised exception. -/
structure Converters where
  textConv : RawParserMsg → Except String TextContent
  photoConv : RawParserMsg → Except String (Option PhotoContent)
  videoConv : RawParserMsg → Except String (Option VideoContent)
  audioConv : RawParserMsg → Except String (Option AudioContent)

/-- `ContentAnalyzer._process_document`: dispatch on the document's
attributes in priority order, inside this method's own
`try/except` (a raised converter exception yields `[]`). -/
def processDocument (conv : Converters)
    (hasVideoAttr hasAudioAttr hasAnimatedAttr : Bool) (mimeType : String)
    (m : RawParserMsg) : List Content :=
  let attempt : Except String (List Content) :=
    if hasVideoAttr then
      (conv.videoConv m).map
        (fun r => match r with | some v => [Content.video v] | none => [])
    else if hasAudioAttr then
      (conv.audioConv m).map
        (fun r => match r with | some a => [Content.audio a] | none => [])
    else if hasAnimatedAttr then
      (conv.photoConv m).map
        (fun r =>
          match r with
          | some p => [Content.photo { p with is_animated := true }]
          | none => [])
    else if mimeType.startsWith "image/" then
      (conv.photoConv m).map
        (fun r => match r with | some p => [Content.photo p] | none => [])
    else
      Except.ok []
  match attempt with
  | Except.ok l => l
  | Except.error _ => []

/-- `ContentAnalyzer._process_media`: photo-shaped media goes to the
photo converter, document-shaped media to `_process_document`; the whole
body sits in a `try/except` that logs and returns the items collected
so far — nothing has been appended when a converter raises, so the
caught branch yields `[]`. -/
def processMedia (conv : Converters) (m : RawParserMsg) : List Content :=
  match m.media with
  | none => []
  | some MediaPayload.photoMedia =>
    match conv.photoConv m with
    | Except.ok (some p) => [Content.photo p]
    | Except.ok none => []
    | Except.error _ => []
  | some (MediaPayload.documentMedia v a an mime) =>
    processDocument conv v a an mime m

/-- `ContentAnalyzer.extract_contents`: the text conversion runs
outside any `try/except` — an exception there propagates to the caller —
then the media items are appended. -/
def extract_contents (conv : Converters) (m : RawParserMsg) :
    Except String (List Content) :=
  if m.message = "" then
    Except.ok (processMedia conv m)
  else
    match conv.textConv m with
    | Except.error e => Except.error e
    | Except.ok t => Except.ok (Content.text t :: processMedia conv m)

/-! ## Persistence engine (`listener/database/*.py`)

Timestamps (`datetime`) are `Int`; `datetime.now()` is passed in as the
`now` argument of each operation.  The store itself is healthy: every
query executes, and `execute_query` returns a row set exactly when the
query text starts with `select` (`connectDB.py`, lines 56-61). -/

/-- SQL `COALESCE(a, b)`: the first non-null argument. -/
def coalesce {α : Type} (a b : Option α) : Option α :=
  match a with
  | some x => some x
  | none => b

/-- Whitespace as `str.strip()` sees it. -/
def pyIsSpace (c : Char) : Bool :=
  c = ' ' ∨ c = '\t' ∨ c = '\n' ∨ c = '\r'

/-- Whether `PostgreSQLConnector.execute_query` hands back the fetched
rows: `query.strip().lower().startswith("select")`, spelled out on the
character list. -/
def queryReturnsRows (query : String) : Bool :=
  "select".data.isPrefixOf
    ((query.data.dropWhile pyIsSpace).map Char.toLower)

/-- The SQL text issued by `AudioMessageDBHandler.save_content`. -/
def audioInsertQuery : String :=
  "INSERT INTO message_contents ( message_id, chat_id, content_type, file_id, file_unique_id, file_size, duration, mime_type, performer, title, thumbnail_url ) VALUES ($1, $2, $3, $4, $5, $6, $7, $8, $9, $10, $11) RETURNING content_id"

/-- A row of the `chats` table. -/
structure ChatsRow where
  chat_id : Int
  chat_type : String
  title : Option String
  description : Option String
  invite_link : Option String
  created_at : Int
  updated_at : Int
deriving DecidableEq, Repr

/-- A row of the `users` table. -/
structure UsersRow where
  user_id : Int
  username : Option String
  first_name : Option String
  last_name : Option String
  language_code : Option String
  is_bot : Option Bool
  is_premium : Option Bool
  created_at : Int
  updated_at : Int
deriving DecidableEq, Repr

/-- A row of the `messages` table. -/
structure MessagesRow where
  message_id : Int
  chat_id : Int
  user_id : Option Int
  text : Option String
  message_type : String
  date : Int
  edit_date : Option Int
  is_outgoing : Bool
  reply_to_message_id : Option Int
  reply_to_chat_id : Option Int
  forward_from : Option Int
  forward_from_chat : Option Int
  forward_date : Option Int
  via_bot_id : Option Int
  media_group_id : Option Int
  author_signature : Option String
  views : Option Int
  forwards : Option Int
  has_media_spoiler : Bool
  has_protected_content : Bool
  created_at : Int
deriving DecidableEq, Repr

/-- A row of the `message_contents` table (`content_id` is the
generated serial key). -/
structure ContentRow where
  content_id : Nat
  message_id : Int
  chat_id : Int
  content_type : String
  media_group_id : Option Int
  text_content : Option String
  caption : Option String
  file_id : Option String
  file_unique_id : Option String
  file_size : Option Int
  width : Option Int
  height : Option Int
  duration : Option Int
  mime_type : Option String
  performer : Option String
  title : Option String
  thumbnail_url : Option String
  binary_data : Option (List Nat)
  created_at : Int
deriving DecidableEq, Repr

/-- The relational store: the four tables and the next serial value for
`message_contents.content_id`. -/
structure DBState where
  chats : List ChatsRow
  users : List UsersRow
  messages : List MessagesRow
  message_contents : List ContentRow
  nextContentId : Nat
deriving DecidableEq, Repr

/-- `schema.base.Message` — the NormalizedMessage handed to
`save_message`. -/
structure NormalizedMessage where
  user_id : Option Int
  username : Option String
  first_name : Option String
  last_name : Option String
  language_code : Option String
  is_bot : Bool
  is_premium : Bool
  chat_id : Int
  chat_type : String
  title : Option String
  description : Option String
  invite_link : Option String
  message_id : Int
  text : Option String
  message_type : String
  date : Int
  edit_date : Option Int
  is_outgoing : Bool
  reply_to_message_id : Option Int
  reply_to_chat_id : Option Int
  forward_from : Option Int
  forward_from_chat : Option Int
  forward_date : Option Int
  via_bot_id : Option Int
  media_group_id : Option Int
  author_signature : Option String
  views : Option Int
  forwards : Option Int
  has_media_spoiler : Bool
  has_protected_content : Bool
  contents : List Content
deriving DecidableEq, Repr

/-- `TelegramMessageHandler._ensure_chat_exists`: upsert on `chat_id`;
on conflict `chat_type` and `updated_at` are overwritten, the remaining
fields use COALESCE(new, existing). -/
def ensureChatExists (now : Int) (db : DBState) (m : NormalizedMessage) :
    Bool × DBState :=
  if db.chats.any (fun r => r.chat_id = m.chat_id) then
    (true,
     { db with
        chats := db.chats.map (fun r =>
          if r.chat_id = m.chat_id then
            { r with
               chat_type := m.chat_type,
               title := coalesce m.title r.title,
               description := coalesce m.description r.description,
               invite_link := coalesce m.invite_link r.invite_link,
               updated_at := now }
          else r) })
  else
    (true,
     { db with
        chats := db.chats ++
          [⟨m.chat_id, m.chat_type, m.title, m.description, m.invite_link,
            now, now⟩] })

/-- `TelegramMessageHandler._ensure_user_exists`: upsert on `user_id`
with COALESCE(new, existing) on every non-key field except
`updated_at`.  The incoming values are never null (pydantic gives them
defaults), so the coalesce always takes the new value. -/
def ensureUserExists (now : Int) (db : DBState) (m : NormalizedMessage) :
    Bool × DBState :=
  match m.user_id with
  | none => (true, db)
  | some uid =>
    if db.users.any (fun r => r.user_id = uid) then
      (true,
       { db with
          users := db.users.map (fun r =>
            if r.user_id = uid then
              { r with
                 username := coalesce m.username r.username,
                 first_name := coalesce m.first_name r.first_name,
                 last_name := coalesce m.last_name r.last_name,
                 language_code := coalesce m.language_code r.language_code,
                 is_bot := coalesce (some m.is_bot) r.is_bot,
                 is_premium := coalesce (some m.is_premium) r.is_premium,
                 updated_at := now }
            else r) })
    else
      (true,
       { db with
          users := db.users ++
            [⟨uid, m.username, m.first_name, m.last_name, m.language_code,
              some m.is_bot, some m.is_premium, now, now⟩] })

/-- The `messages` row inserted for `m` (`_save_message_metadata`'s
parameter tuple). -/
def messagesRowOf (now : Int) (m : NormalizedMessage) : MessagesRow :=
  ⟨m.message_id, m.chat_id, m.user_id, m.text, m.message_type, m.date,
   m.edit_date, m.is_outgoing, m.reply_to_message_id, m.reply_to_chat_id,
   m.forward_from, m.forward_from_chat, m.forward_date, m.via_bot_id,
   m.media_group_id, m.author_signature, m.views, m.forwards,
   m.has_media_spoiler, m.has_protected_content, now⟩

/-- `TelegramMessageHandler._save_message_metadata`: upsert on
`(message_id, chat_id)`; on conflict only `text`, `edit_date`, `views`
and `forwards` are touched, each with COALESCE(new, existing). -/
def saveMessageMetadata (now : Int) (db : DBState) (m : NormalizedMessage) :
    Bool × DBState :=
  if db.messages.any
      (fun r => r.message_id = m.message_id ∧ r.chat_id = m.chat_id) then
    (true,
     { db with
        messages := db.messages.map (fun r =>
          if r.message_id = m.message_id ∧ r.chat_id = m.chat_id then
            { r with
               text := coalesce m.text r.text,
               edit_date := coalesce m.edit_date r.edit_date,
               views := coalesce m.views r.views,
               forwards := coalesce m.forwards r.forwards }
          else r) })
  else
    (true, { db with messages := db.messages ++ [messagesRowOf now m] })

/-- An all-null `message_contents` row to fill per-kind columns from. -/
def blankContentRow (cid : Nat) (mid chid : Int) (ctype : String)
    (now : Int) : ContentRow :=
  ⟨cid, mid, chid, ctype, none, none, none, none, none, none, none, none,
   none, none, none, none, none, none, now⟩

/-- `TextMessageDBHandler.save_content`: a plain INSERT of
`(message_id, chat_id, media_group_id, 'text', text_content, caption)`. -/
def TextMessageDBHandler.save_content (now : Int) (db : DBState)
    (m : NormalizedMessage) (t : TextContent) : Bool × DBState :=
  let row :=
    { blankContentRow db.nextContentId m.message_id m.chat_id "text" now with
        media_group_id := m.media_group_id,
        text_content := some t.text,
        caption := t.caption }
  (true,
   { db with
      message_contents := db.message_contents ++ [row],
      nextContentId := db.nextContentId + 1 })

/-- `PhotoMessageDBHandler.save_content`: validate the size list and its
best variant, elide inline bytes above 5 MB, then either UPDATE the
existing `(message_id, chat_id, 'photo')` row in place or INSERT a new
one. -/
def PhotoMessageDBHandler.save_content (now : Int) (db : DBState)
    (m : NormalizedMessage) (p : PhotoContent) : Bool × DBState :=
  if p.photo = [] then (false, db)
  else
    match p.best_quality with
    | none => (false, db)
    | some best =>
      if best.file_id = "" then (false, db)
      else
        let binary :=
          match best.image_data with
          | some b => if b.length > 5000000 then none else some b
          | none => none
        if db.message_contents.any (fun r =>
            r.message_id = m.message_id ∧ r.chat_id = m.chat_id ∧
            r.content_type = "photo") then
          (true,
           { db with
              message_contents := db.message_contents.map (fun r =>
                if r.message_id = m.message_id ∧ r.chat_id = m.chat_id ∧
                    r.content_type = "photo" then
                  { r with
                     media_group_id := m.media_group_id,
                     caption := p.caption,
                     file_id := some best.file_id,
                     file_unique_id := some best.file_unique_id,
                     file_size := best.file_size,
                     width := some (Int.ofNat best.width),
                     height := some (Int.ofNat best.height),
                     binary_data := binary,
                     created_at := now }
                else r) })
        else
          let row :=
            { blankContentRow db.nextContentId m.message_id m.chat_id
                "photo" now with
               media_group_id := m.media_group_id,
               caption := p.caption,
               file_id := some best.file_id,
               file_unique_id := some best.file_unique_id,
               file_size := best.file_size,
               width := some (Int.ofNat best.width),
               height := some (Int.ofNat best.height),
               binary_data := binary }
          (true,
           { db with
              message_contents := db.message_contents ++ [row],
              nextContentId := db.nextContentId + 1 })

/-- `VideoMessageDBHandler.save_content`: elide inline bytes above
50 MB, flatten the thumbnail to its `file_id`, then a plain INSERT —
there is no conflict clause and no exists-check for video. -/
def VideoMessageDBHandler.save_content (now : Int) (db : DBState)
    (m : NormalizedMessage) (v : VideoContent) : Bool × DBState :=
  let binary :=
    match v.video_bytes with
    | some b => if b.length > 50000000 then none else some b
    | none => none
  let thumbnailUrl := v.thumbnail.map (fun th => th.file_id)
  let row :=
    { blankContentRow db.nextContentId m.message_id m.chat_id "video" now with
       media_group_id := m.media_group_id,
       caption := v.caption,
       file_id := some v.file_id,
       file_unique_id := some v.file_unique_id,
       file_size := v.file_size,
       width := some (Int.ofNat v.width),
       height := some (Int.ofNat v.height),
       duration := some (Int.ofNat v.duration),
       mime_type := v.mime_type,
       thumbnail_url := thumbnailUrl,
       binary_data := binary }
  (true,
   { db with
      message_contents := db.message_contents ++ [row],
      nextContentId := db.nextContentId + 1 })

/-- `AudioMessageDBHandler.save_content`: a plain INSERT whose SQL ends
in `RETURNING content_id`; the row is written, but `execute_query`
returns a row set only for queries starting with `select`, so
`result` is null and the handler returns
`result[0][0] if success and result else None` = `None`. -/
def AudioMessageDBHandler.save_content (now : Int) (db : DBState)
    (m : NormalizedMessage) (a : AudioContent) : Option Nat × DBState :=
  let row :=
    { blankContentRow db.nextContentId m.message_id m.chat_id "audio" now with
       file_id := some a.file_id,
       file_unique_id := some a.file_unique_id,
       file_size := a.file_size,
       duration := some (Int.ofNat a.duration),
       mime_type := a.mime_type,
       performer := a.performer,
       title := a.title,
       thumbnail_url := a.thumbnail_url }
  let db' :=
    { db with
       message_contents := db.message_contents ++ [row],
       nextContentId := db.nextContentId + 1 }
  let success := true
  let result : Option (List (List Nat)) :=
    if queryReturnsRows audioInsertQuery then some [[db.nextContentId]]
    else none
  match success, result with
  | true, some ((cid :: _) :: _) => (some cid, db')
  | _, _ => (none, db')

/-- Python truthiness of the audio handler's `Optional[int]` result as
tested by `if not await handler.save_content(...)`. -/
def pythonTruthyOptNat : Option Nat → Bool
  | none => false
  | some n => n ≠ 0

/-- `TelegramMessageHandler._get_content_type` plus the dispatch to the
matching handler inside `_save_message_contents`, flattened to the
boolean the caller tests. -/
def saveContentDispatch (now : Int) (db : DBState) (m : NormalizedMessage) :
    Content → Bool × DBState
  | Content.text t => TextMessageDBHandler.save_content now db m t
  | Content.photo p => PhotoMessageDBHandler.save_content now db m p
  | Content.video v => VideoMessageDBHandler.save_content now db m v
  | Content.audio a =>
    let r := AudioMessageDBHandler.save_content now db m a
    (pythonTruthyOptNat r.1, r.2)

/-- The loop of `_save_message_contents`: items in order, first failure
aborts the remaining items. -/
def saveContentsLoop (now : Int) (m : NormalizedMessage) :
    DBState → List Content → Bool × DBState
  | db, [] => (true, db)
  | db, c :: cs =>
    let r := saveContentDispatch now db m c
    if r.1 then saveContentsLoop now m r.2 cs else (false, r.2)

/-- `TelegramMessageHandler._save_message_contents`. -/
def saveMessageContents (now : Int) (db : DBState) (m : NormalizedMessage) :
    Bool × DBState :=
  saveContentsLoop now m db m.contents

/-- The `if message.user_id and not await self._ensure_user_exists(...)`
step of `save_message`: the user upsert only runs (and only gates the
save) when `message.user_id` is truthy. -/
def userStep (now : Int) (db : DBState) (m : NormalizedMessage) :
    Bool × DBState :=
  match m.user_id with
  | some uid => if uid ≠ 0 then ensureUserExists now db m else (true, db)
  | none => (true, db)

/-- `TelegramMessageHandler.save_message`: chat upsert, optional user
upsert, metadata upsert, then the content items — short-circuiting on
the first failed step. -/
def save_message (now : Int) (db : DBState) (m : NormalizedMessage) :
    Bool × DBState :=
  let r1 := ensureChatExists now db m
  if ¬ r1.1 then (false, r1.2)
  else
    let r2 := userStep now r1.2 m
    if ¬ r2.1 then (false, r2.2)
    else
      let r3 := saveMessageMetadata now r2.2 m
      if ¬ r3.1 then (false, r3.2)
      else saveMessageContents now r3.2 m

/-! ### Loading (`baseDB.load_message` and the per-kind loaders) -/

/-- `_load_message_metadata`: the first (only) `messages` row for the
key, or null. -/
def loadMessageMetadata (db : DBState) (mid cid : Int) :
    Option MessagesRow :=
  (db.messages.filter
    (fun r => r.message_id = mid ∧ r.chat_id = cid)).head?

/-- `_load_chat_info`. -/
def loadChatInfo (db : DBState) (cid : Int) : Option ChatsRow :=
  (db.chats.filter (fun r => r.chat_id = cid)).head?

/-- `_load_user_info`. -/
def loadUserInfo (db : DBState) (uid : Int) : Option UsersRow :=
  (db.users.filter (fun r => r.user_id = uid)).head?

/-- The `SELECT DISTINCT content_type` query of
`_load_message_contents`. -/
def distinctContentTypes (db : DBState) (mid cid : Int) : List String :=
  ((db.message_contents.filter
      (fun r => r.message_id = mid ∧ r.chat_id = cid)).map
    (fun r => r.content_type)).dedup

/-- What a per-kind loader hands back: the text loader rebuilds a
`TextMessage`, the video loader a field dictionary. -/
inductive LoadedContent where
  | text (t : TextContent)
  | videoDict (caption : Option String) (file_id : Option String)
      (file_unique_id : Option String) (file_size : Option Int)
      (width : Option Int) (height : Option Int) (duration : Option Int)
      (mime_type : Option String) (thumbnailFileId : Option String)
      (video_bytes : Option (List Nat)) (media_group_id : Option Int)
deriving DecidableEq, Repr

/-- `TextMessageDBHandler.load_content`: the first `'text'` row for the
key; `TextMessage(text=None)` would fail validation, which the handler
catches into null. -/
def TextMessageDBHandler.load_content (db : DBState) (mid cid : Int) :
    Option TextContent :=
  match (db.message_contents.filter (fun r =>
      r.message_id = mid ∧ r.chat_id = cid ∧
      r.content_type = "text")).head? with
  | none => none
  | some row =>
    match row.text_content with
    | none => none
    | some t => some ⟨t, row.caption⟩

/-- `VideoMessageDBHandler.load_content`: the first `'video'` row for
the key, as a field dictionary. -/
def VideoMessageDBHandler.load_content (db : DBState) (mid cid : Int) :
    Option LoadedContent :=
  match (db.message_contents.filter (fun r =>
      r.message_id = mid ∧ r.chat_id = cid ∧
      r.content_type = "video")).head? with
  | none => none
  | some row =>
    some (LoadedContent.videoDict row.caption row.file_id
      row.file_unique_id row.file_size row.width row.height row.duration
      row.mime_type row.thumbnail_url row.binary_data row.media_group_id)

/-- What `_load_message_contents` can reach on a handler object: either
the handler class implements `load_content`, or the attribute lookup
raises `AttributeError` (modelled as `none`).
`PhotoMessageDBHandler` and `AudioMessageDBHandler` implement only
`save_content`. -/
def handlerLoadContent :
    String → Option (Option (DBState → Int → Int → Option LoadedContent))
  | "text" => some (some (fun db mid cid =>
      (TextMessageDBHandler.load_content db mid cid).map LoadedContent.text))
  | "photo" => some none
  | "video" => some (some VideoMessageDBHandler.load_content)
  | "audio" => some none
  | _ => none

/-- The dispatch loop of `_load_message_contents`: unknown content
types are skipped with a warning, a missing `load_content` attribute
raises and is caught into an overall null, a null per-kind load is
skipped. -/
def loadContentsLoop (db : DBState) (mid cid : Int) :
    List String → List LoadedContent → Option (List LoadedContent)
  | [], acc => some acc.reverse
  | t :: ts, acc =>
    match handlerLoadContent t with
    | none => loadContentsLoop db mid cid ts acc
    | some none => none
    | some (some f) =>
      match f db mid cid with
      | some c => loadContentsLoop db mid cid ts (c :: acc)
      | none => loadContentsLoop db mid cid ts acc

/-- `TelegramMessageHandler._load_message_contents`. -/
def loadMessageContents (db : DBState) (mid cid : Int) :
    Option (List LoadedContent) :=
  loadContentsLoop db mid cid (distinctContentTypes db mid cid) []

/-- The reconstructed message `load_message` assembles (the fields that
come from the three metadata loads plus the content list). -/
structure LoadedMessage where
  message_id : Int
  chat_id : Int
  chat_type : String
  user_id : Option Int
  title : Option String
  text : Option String
  contents : List LoadedContent
deriving DecidableEq, Repr

/-- `TelegramMessageHandler.load_message`: metadata row (absent →
null), chat row (absent → null), optional user row, contents (null →
null); constructing `Message` with an empty content list fails
pydantic's `min_length=1` and is caught into null. -/
def load_message (db : DBState) (mid cid : Int) : Option LoadedMessage :=
  match loadMessageMetadata db mid cid with
  | none => none
  | some meta =>
    match loadChatInfo db cid with
    | none => none
    | some chat =>
      match loadMessageContents db mid cid with
      | none => none
      | some contents =>
        if contents = [] then none
        else
          some ⟨mid, cid, chat.chat_type, meta.user_id, chat.title,
                meta.text, contents⟩

/-! ## Schema bootstrap (`listener/database/createDB.py`) -/

/-- One table of `creation_order`: its name and the tables it depends
on. -/
structure TableDef where
  name : String
  deps : List String
deriving DecidableEq, Repr

/-- What `initialize_database` leaves behind: the tables now known to
exist, the tables it could not create, and the
"could not create tables" diagnostic (with the list it names), when one
was logged. -/
structure BootstrapOutcome where
  created : List String
  unresolved : List String
  errorLogged : Option (List String)
deriving DecidableEq, Repr

/-- One `for table in creation_order` pass: create (or acknowledge)
every pending table whose dependencies are already satisfied, and
report whether the pass made progress. -/
def bootstrapPass :
    List TableDef → List String → List String → Bool →
    List String × List String × Bool
  | [], created, remaining, progress => (created, remaining, progress)
  | t :: ts, created, remaining, progress =>
    if t.name ∈ remaining then
      if t.deps.all (fun d => d ∈ created) then
        bootstrapPass ts (created ++ [t.name]) (remaining.erase t.name) true
      else bootstrapPass ts created remaining progress
    else bootstrapPass ts created remaining progress

theorem length_erase_lt {a : String} {l : List String} (h : a ∈ l) :
    (l.erase a).length < l.length := by
  have := List.length_erase_add_one h
  omega

theorem bootstrapPass_remaining_le (ts : List TableDef)
    (created remaining : List String) (p : Bool) :
    (bootstrapPass ts created remaining p).2.1.length ≤ remaining.length := by
  induction ts generalizing created remaining p with
  | nil => simp [bootstrapPass]
  | cons t ts ih =>
    by_cases h1 : t.name ∈ remaining
    · by_cases h2 : t.deps.all (fun d => d ∈ created)
      · simp only [bootstrapPass, if_pos h1, if_pos h2]
        exact le_trans (ih ..) (le_of_lt (length_erase_lt h1))
      · simp only [bootstrapPass, if_pos h1, if_neg h2]; exact ih ..
    · simp only [bootstrapPass, if_neg h1]; exact ih ..

theorem bootstrapPass_progress_lt (ts : List TableDef)
    (created remaining : List String)
    (h : (bootstrapPass ts created remaining false).2.2 = true) :
    (bootstrapPass ts created remaining false).2.1.length <
      remaining.length := by
  induction ts generalizing created remaining with
  | nil => simp [bootstrapPass] at h
  | cons t ts ih =>
    by_cases h1 : t.name ∈ remaining
    · by_cases h2 : t.deps.all (fun d => d ∈ created)
      · simp only [bootstrapPass, if_pos h1, if_pos h2]
        exact lt_of_le_of_lt (bootstrapPass_remaining_le ..)
          (length_erase_lt h1)
      · simp only [bootstrapPass, if_pos h1, if_neg h2] at h ⊢; exact ih _ _ h
    · simp only [bootstrapPass, if_neg h1] at h ⊢; exact ih _ _ h

/-- The `while remaining_tables:` loop of `initialize_database`: run
passes until nothing is pending; if a full pass creates nothing while
tables remain, log the error naming them and break — the loop ends
either way. -/
def bootstrapLoop (tables : List TableDef)
    (created remaining : List String) : BootstrapOutcome :=
  if h0 : remaining = [] then ⟨created, [], none⟩
  else
    let r := bootstrapPass tables created remaining false
    if h : r.2.2 = true then bootstrapLoop tables r.1 r.2.1
    else ⟨created, remaining, some remaining⟩
termination_by remaining.length
decreasing_by exact bootstrapPass_progress_lt tables created remaining h

/-- `DatabaseCreator.initialize_database` on a healthy store: the only
`raise` re-throws an exception from inside the `try`, and on a healthy
store no query raises, so the deadlock path logs and `break`s — the
result is always a normal return (`Except.ok`). -/
def initialize_database (tables : List TableDef) :
    Except String BootstrapOutcome :=
  Except.ok (bootstrapLoop tables [] (tables.map (fun t => t.name)))

/-! ## Reply cache (`listener/messager/comment.py`)

Python dicts are association lists in insertion order; a comment is its
id and its publication date. -/

/-- A cached reply. -/
structure CachedComment where
  id : Nat
  date : Int
deriving DecidableEq, Repr

/-- The `CommentTracker` stores relevant to expiry and drain:
`_tracked_messages : {channel: {msg: post_time}}`,
`_processed_comments : {channel: {msg: {comment_ids}}}`,
`_new_comments_cache : {channel: {msg: [comments]}}` and
`_total_cached`. -/
structure TrackerState where
  trackedMessages : List (Int × List (Int × Int))
  processedComments : List (Int × List (Int × List Nat))
  newCommentsCache : List (Int × List (Int × List CachedComment))
  totalCached : Nat
deriving DecidableEq, Repr

/-- The expiry phase of `_check_for_new_comments`: keep each post whose
`post_time > expired_time`; a channel whose post dict becomes empty is
dropped from `_tracked_messages` and its whole `_new_comments_cache`
entry is popped.  `_processed_comments` and `_total_cached` are not
touched. -/
def purgeExpired (st : TrackerState) (expiredTime : Int) : TrackerState :=
  let filtered := st.trackedMessages.map (fun p =>
    (p.1, p.2.filter (fun q => q.2 > expiredTime)))
  let removedChannels :=
    (filtered.filter (fun p => p.2 = [])).map (fun p => p.1)
  { st with
     trackedMessages := filtered.filter (fun p => ¬ p.2 = []),
     newCommentsCache := st.newCommentsCache.filter
       (fun p => ¬ p.1 ∈ removedChannels) }

/-- `tracked_messages_count`. -/
def trackedMessagesCount (st : TrackerState) : Nat :=
  (st.trackedMessages.map (fun p => p.2.length)).sum

/-- The posts (channel, msg, post-time) currently tracked, flattened. -/
def trackedPosts (st : TrackerState) : List (Int × Int × Int) :=
  st.trackedMessages.flatMap (fun p => p.2.map (fun q => (p.1, q.1, q.2)))

/-- The cached replies of one watched post. -/
def cachedRepliesFor (st : TrackerState) (ch msg : Int) :
    List CachedComment :=
  match st.newCommentsCache.find? (fun p => p.1 = ch) with
  | none => []
  | some p =>
    match p.2.find? (fun q => q.1 = msg) with
    | none => []
    | some q => q.2

/-- The seen-reply-id set of one watched post. -/
def seenIdsFor (st : TrackerState) (ch msg : Int) : List Nat :=
  match st.processedComments.find? (fun p => p.1 = ch) with
  | none => []
  | some p =>
    match p.2.find? (fun q => q.1 = msg) with
    | none => []
    | some q => q.2

/-- Every reply currently in the cache, in storage order. -/
def allCachedComments (st : TrackerState) : List CachedComment :=
  st.newCommentsCache.flatMap (fun p => p.2.flatMap (fun q => q.2))

/-- `sorted(comments, key=λx. x.date)` — Python's stable sort,
modelled by the (stable) insertion sort on the date order. -/
def sortComments (l : List CachedComment) : List CachedComment :=
  l.insertionSort (fun a b => a.date ≤ b.date)

instance : IsTotal CachedComment (fun a b => a.date ≤ b.date) :=
  ⟨fun a b => le_total a.date b.date⟩

instance : IsTrans CachedComment (fun a b => a.date ≤ b.date) :=
  ⟨fun _ _ _ hab hbc => le_trans hab hbc⟩

/-- The inner `for msg_id in list(...)` loop of `get_comments` over one
channel's post dict: non-empty lists are yielded sorted by date and
reset to `[]`; the dict keeps its keys. -/
def drainChannelMsgs :
    List (Int × List CachedComment) →
    List CachedComment × List (Int × List CachedComment)
  | [] => ([], [])
  | (mid, comments) :: rest =>
    let r := drainChannelMsgs rest
    if comments = [] then (r.1, (mid, comments) :: r.2)
    else (sortComments comments ++ r.1, (mid, ([] : List CachedComment)) :: r.2)

/-- The outer loop of `get_comments`: drain each channel, then
`if not self._new_comments_cache[channel_id]: del ...` — only a channel
whose post dict has no keys at all is deleted. -/
def drainCache :
    List (Int × List (Int × List CachedComment)) →
    List CachedComment × List (Int × List (Int × List CachedComment))
  | [] => ([], [])
  | (ch, msgs) :: rest =>
    let c := drainChannelMsgs msgs
    let r := drainCache rest
    if c.2 = [] then (c.1 ++ r.1, r.2)
    else (c.1 ++ r.1, (ch, c.2) :: r.2)

/-- `CommentTracker.get_comments`, run to completion: the yielded
sequence and the state it leaves (each yield decrements
`_total_cached`). -/
def get_comments (st : TrackerState) :
    List CachedComment × TrackerState :=
  let r := drainCache st.newCommentsCache
  (r.1,
   { st with
      newCommentsCache := r.2,
      totalCached := st.totalCached - r.1.length })

/-- The channels whose every tracked post has expired at the cutoff —
exactly the channels whose `_new_comments_cache` entry `purgeExpired`
pops. -/
def fullyExpiredChannels (st : TrackerState) (t : Int) : List Int :=
  ((st.trackedMessages.map (fun p =>
      (p.1, p.2.filter (fun q => q.2 > t)))).filter
    (fun p => p.2 = [])).map (fun p => p.1)

/-! ## Observables and concrete fixtures -/

/-- The `messages` rows stored under one `(message_id, chat_id)` key. -/
def messagesRowsFor (db : DBState) (mid cid : Int) : List MessagesRow :=
  db.messages.filter (fun r => r.message_id = mid ∧ r.chat_id = cid)

/-- The `message_contents` rows stored under one
`(message_id, chat_id)` key. -/
def contentRowsFor (db : DBState) (mid cid : Int) : List ContentRow :=
  db.message_contents.filter (fun r => r.message_id = mid ∧ r.chat_id = cid)

/-- How many `message_contents` rows a single-item message holds after
being saved twice: photo rows are updated in place, the other kinds are
inserted anew on every save. -/
def doubleSaveContentCount : Content → Nat
  | Content.photo _ => 1
  | _ => 2

/-- An empty store whose `content_id` serial starts at 1. -/
def dbEmpty : DBState := ⟨[], [], [], [], 1⟩

/-- Sample content items for concrete runs. -/
def textSample : TextContent := ⟨"hello", none⟩

def photoSample : PhotoContent :=
  ⟨[⟨"photo-file-1", "photo-uniq-1", 100, 100, none, none⟩], none, false⟩

def videoSample : VideoContent :=
  ⟨"video-file-1", "video-uniq-1", 5, 640, 480, none, none, none, none,
   none⟩

def audioSample : AudioContent :=
  ⟨"audio-file-0001", "audio-uniq-1", 30, none, none, none, none, none⟩

/-- A channel post with the given content list. -/
def sampleMsg (cs : List Content) : NormalizedMessage :=
  ⟨none, none, none, none, none, false, false, 100, "channel", none, none,
   none, 1, some "hello", "text", 0, none, false, none, none, none, none,
   none, none, none, none, none, none, false, false, cs⟩

/-- Converters whose media converters all raise, over the real text
converter. -/
def errConverters : Converters :=
  ⟨TextConverter.convert,
   fun _ => Except.error "photo converter raised",
   fun _ => Except.error "video converter raised",
   fun _ => Except.error "audio converter raised"⟩

/-- Converters over the real text converter whose photo converter
succeeds. -/
def okPhotoConverters : Converters :=
  ⟨TextConverter.convert,
   fun _ => Except.ok (some photoSample),
   fun _ => Except.ok none,
   fun _ => Except.ok none⟩

/-- A message body one character past the 4096-character pydantic bound
of `TextMessage.text`. -/
def longText : String := String.mk (List.replicate 4097 'a')

/-- A raw event carrying both an over-long text and a photo. -/
def rawLongMsg : RawParserMsg :=
  ⟨1, longText, some MediaPayload.photoMedia, none⟩

/-- An unsatisfiable bootstrap input: one table depending on a table
that is in nobody's creation list. -/
def c7Tables : List TableDef := [⟨"a", ["zzz"]⟩]

/-- A tracker state with one channel holding an expired post (id 10,
seen-reply 5, one cached reply) and a live post (id 11). -/
def c6State : TrackerState :=
  ⟨[(1, [(10, 0), (11, 100)])],
   [(1, [(10, [5])])],
   [(1, [(10, [⟨7, 50⟩])])],
   1⟩

/-- A cache whose two posts hold replies whose dates are out of order
across posts. -/
def c9State : TrackerState :=
  ⟨[], [], [(1, [(10, [⟨1, 10⟩]), (11, [⟨2, 5⟩])])], 2⟩

/-!
# Theorems

Helper lemmas first, then per-claim theorems (one theorem per claim,
plus its witness or counterexample).
-/

theorem collectPass_eq (g : Nat) (group : List TMsg) (q : List TMsg) :
    collectPass g group q =
      (group ++ q.filter (fun m => m.groupedId = some g),
       q.filter (fun m => ¬ m.groupedId = some g)) := by
  induction q generalizing group with
  | nil => simp [collectPass]
  | cons m rest ih =>
    by_cases h : m.groupedId = some g
    · simp [collectPass, h, ih]
    · simp [collectPass, h, ih]

theorem filter_yes_of_filter_no (g : Nat) (l : List TMsg) :
    (l.filter (fun m => ¬ m.groupedId = some g)).filter
      (fun m => m.groupedId = some g) = [] := by
  induction l with
  | nil => rfl
  | cons m rest ih =>
    by_cases h : m.groupedId = some g <;> simp [h, ih]

theorem filter_no_idem (g : Nat) (l : List TMsg) :
    (l.filter (fun m => ¬ m.groupedId = some g)).filter
      (fun m => ¬ m.groupedId = some g) =
      l.filter (fun m => ¬ m.groupedId = some g) := by
  induction l with
  | nil => rfl
  | cons m rest ih =>
    by_cases h : m.groupedId = some g <;> simp [h, ih]

theorem processMediaGroup_cons_eq (g : Nat) (rounds : List (List TMsg))
    (arrivals group q : List TMsg) :
    processMediaGroup g group q (arrivals :: rounds) =
      (group ++ ((q ++ arrivals) ++ rounds.flatten).filter
          (fun m => m.groupedId = some g),
       ((q ++ arrivals) ++ rounds.flatten).filter
          (fun m => ¬ m.groupedId = some g)) := by
  induction rounds generalizing arrivals group q with
  | nil => simp [processMediaGroup, collectPass_eq]
  | cons a rs ih =>
    show processMediaGroup g
        (collectPass g group (q ++ arrivals)).1
        (collectPass g group (q ++ arrivals)).2 (a :: rs) = _
    rw [ih]
    simp only [collectPass_eq, List.filter_append, List.append_assoc,
      filter_yes_of_filter_no, filter_no_idem, List.flatten_cons]
    simp

/-! ## C2 — buffer consumption order -/

/-- C2: the claim states that `wait_for_message` consumes the OLDEST
buffered event (FIFO).  On the two-element buffer `[id 1, id 2]`
(id 1 arrived first) the code consumes `self._queue[-1]`, the newest
event (id 2), not the oldest — the claim is false. -/
theorem c2_counterexample :
    ¬ ((takeFirstMsg [⟨1, none, 0⟩, ⟨2, none, 0⟩]).map Prod.fst =
       ([⟨1, none, 0⟩, ⟨2, none, 0⟩] : List TMsg).head?) := by
  decide

/-- C2 (amended): for every buffer state with at least one stored
event, `wait_for_message` consumes and returns (or starts its batch
from) the NEWEST buffered event — `self._queue[-1]` — so within one
chat buffered events are handed to processing newest-first (LIFO), not
in arrival order. -/
theorem c2_newest_consumed (q : List TMsg) (m : TMsg) (hm : m ∉ q) :
    takeFirstMsg (q ++ [m]) = some (m, q) := by
  have hlast : (q ++ [m]).getLast? = some m := by
    simp [List.getLast?_append]
  have herase : (q ++ [m]).erase m = q := by
    rw [List.erase_append_right _ hm]
    simp
  simp [takeFirstMsg, hlast, herase]

/-- Witness for C2 (amended) at the buffer `[id 1]` with id 2 pushed
last: id 2 is consumed and id 1 remains. -/
theorem c2_newest_consumed_witness :
    (⟨2, none, 0⟩ : TMsg) ∉ [(⟨1, none, 0⟩ : TMsg)] ∧
    takeFirstMsg ([⟨1, none, 0⟩] ++ [⟨2, none, 0⟩]) =
      some (⟨2, none, 0⟩, [⟨1, none, 0⟩]) :=
  ⟨by decide, c2_newest_consumed [⟨1, none, 0⟩] ⟨2, none, 0⟩ (by decide)⟩

/-! ## C8 — media-group batching -/

/-- C8: when the first event taken by `wait_for_message` carries media
group id `g`, the returned batch contains every event buffered during
the collection (initial queue plus all arrival rounds) whose group id
equals `g`, contains nothing whose group id differs or is absent, and
every other event remains in the buffer. -/
theorem c8_media_group_batch (g : Nat) (first : TMsg) (q : List TMsg)
    (rounds : List (List TMsg)) (hfirst : first.groupedId = some g) :
    (∀ m, m ∈ q ++ rounds.flatten → m.groupedId = some g →
       m ∈ (mediaGroupBatch g first q rounds).1) ∧
    (∀ m, m ∈ (mediaGroupBatch g first q rounds).1 →
       m.groupedId = some g) ∧
    (mediaGroupBatch g first q rounds).2 =
      (q ++ rounds.flatten).filter (fun m => ¬ m.groupedId = some g) := by
  have hrun : mediaGroupBatch g first q rounds =
      ([first] ++ (q ++ rounds.flatten).filter
          (fun m => m.groupedId = some g),
       (q ++ rounds.flatten).filter (fun m => ¬ m.groupedId = some g)) := by
    unfold mediaGroupBatch
    rw [processMediaGroup_cons_eq]
    simp
  refine ⟨?_, ?_, ?_⟩
  · intro m hmem hgid
    rw [hrun]
    simp only [List.cons_append, List.nil_append, List.mem_cons]
    right
    exact List.mem_filter.2 ⟨hmem, by simp [hgid]⟩
  · intro m hmem
    rw [hrun] at hmem
    simp only [List.cons_append, List.nil_append, List.mem_cons] at hmem
    rcases hmem with h | h
    · rw [h]; exact hfirst
    · have := List.mem_filter.1 h
      simpa using this.2
  · rw [hrun]

/-- Witness for C8: group id 7, first message id 1; the queue holds a
same-group event (id 2) and a stray event (id 3); one more same-group
event (id 4) arrives during collection.  Ids 2 and 4 join the batch. -/
theorem c8_media_group_batch_witness :
    (⟨1, some 7, 0⟩ : TMsg).groupedId = some 7 ∧
    (⟨4, some 7, 0⟩ : TMsg) ∈
      (mediaGroupBatch 7 ⟨1, some 7, 0⟩ [⟨2, some 7, 0⟩, ⟨3, none, 0⟩]
        [[⟨4, some 7, 0⟩]]).1 :=
  ⟨rfl,
   (c8_media_group_batch 7 ⟨1, some 7, 0⟩ [⟨2, some 7, 0⟩, ⟨3, none, 0⟩]
       [[⟨4, some 7, 0⟩]] rfl).1 ⟨4, some 7, 0⟩ (by decide) rfl⟩

/-! ## C10 — when the new-data signal is cleared -/

/-- C10: the claim states the shared new-data signal is cleared only in
states with no buffered events and no pending waiters.  Real trace: a
waiter registers, two events are pushed (signal set), the waiter
consumes the newest and exits; the `finally` block sees `_waiters == 0`
and clears the signal although event id 1 is still buffered — the
claim is false. -/
theorem c10_counterexample :
    ¬ (∀ s s' : BufState, BufReachable 1000 s → BufStep 1000 s s' →
        s.signal = true → s'.signal = false →
        s'.queue = [] ∧ s'.waiters = 0) := by
  intro hclaim
  have h1 : BufStep 1000 ⟨[], 0, false⟩ ⟨[], 1, false⟩ :=
    BufStep.enter ⟨[], 0, false⟩
  have h2 : BufStep 1000 ⟨[], 1, false⟩ ⟨[⟨1, none, 0⟩], 1, true⟩ :=
    BufStep.push ⟨[], 1, false⟩ ⟨1, none, 0⟩
  have h3 : BufStep 1000 ⟨[⟨1, none, 0⟩], 1, true⟩
      ⟨[⟨1, none, 0⟩, ⟨2, none, 0⟩], 1, true⟩ :=
    BufStep.push ⟨[⟨1, none, 0⟩], 1, true⟩ ⟨2, none, 0⟩
  have h4 : BufStep 1000 ⟨[⟨1, none, 0⟩, ⟨2, none, 0⟩], 1, true⟩
      ⟨[⟨1, none, 0⟩], 1, true⟩ :=
    BufStep.take _ ⟨2, none, 0⟩ [⟨1, none, 0⟩] (by decide)
  have h5 : BufStep 1000 ⟨[⟨1, none, 0⟩], 1, true⟩
      ⟨[⟨1, none, 0⟩], 0, false⟩ :=
    BufStep.exitWaiter ⟨[⟨1, none, 0⟩], 1, true⟩ (by decide)
  have hreach : BufReachable 1000 ⟨[⟨1, none, 0⟩], 1, true⟩ :=
    Relation.ReflTransGen.tail
      (Relation.ReflTransGen.tail
        (Relation.ReflTransGen.tail
          (Relation.ReflTransGen.tail Relation.ReflTransGen.refl h1) h2)
        h3) h4
  have := hclaim _ _ hreach h5 rfl rfl
  simp at this

/-- C10 (amended): a transition of the push/wait protocol clears the
signal only when it observes an empty queue (leaving the queue empty)
or when the last registered waiter exits (waiter count reaching zero) —
the latter may happen while events remain buffered. -/
theorem c10_signal_clear_cases (maxSize : Nat) (s s' : BufState)
    (hstep : BufStep maxSize s s') (hset : s.signal = true)
    (hclr : s'.signal = false) :
    s'.queue = [] ∨ s'.waiters = 0 := by
  cases hstep with
  | push m =>
    by_cases h : 0 < s.waiters
    · simp [h, hset] at hclr
    · simp [h, hset] at hclr
  | enter => simp [hset] at hclr
  | observeEmpty h => left; exact h
  | take m rest h => simp [hset] at hclr
  | groupScan g =>
    by_cases h : (collectPass g [] s.queue).2 = []
    · left; exact h
    · simp [h, hset] at hclr
  | exitWaiter h =>
    by_cases h0 : s.waiters - 1 = 0
    · right; exact h0
    · simp [h0, hset] at hclr
  | clearAll => left; rfl

/-- Witness for C10 (amended): a waiter that observes an empty queue
clears the signal, and indeed the queue is empty afterwards. -/
theorem c10_signal_clear_cases_witness :
    (⟨[], 1, true⟩ : BufState).signal = true ∧
    ((⟨[], 1, false⟩ : BufState).queue = [] ∨
     (⟨[], 1, false⟩ : BufState).waiters = 0) :=
  ⟨rfl,
   c10_signal_clear_cases 1000 ⟨[], 1, true⟩ ⟨[], 1, false⟩
     (BufStep.observeEmpty ⟨[], 1, true⟩ rfl) rfl rfl⟩

/-! ## C4 — audio content always fails the save -/

theorem audioQuery_not_select : queryReturnsRows audioInsertQuery = false := by
  decide

theorem audio_save_content_none (now : Int) (db : DBState)
    (m : NormalizedMessage) (a : AudioContent) :
    (AudioMessageDBHandler.save_content now db m a).1 = none := by
  simp [AudioMessageDBHandler.save_content, audioQuery_not_select]

theorem saveContentsLoop_audio_false (now : Int) (m : NormalizedMessage) :
    ∀ (l : List Content) (db : DBState), (∃ a, Content.audio a ∈ l) →
      (saveContentsLoop now m db l).1 = false := by
  intro l
  induction l with
  | nil =>
    rintro db ⟨a, ha⟩
    exact absurd ha (List.not_mem_nil _)
  | cons c cs ih =>
    rintro db ⟨a, ha⟩
    rcases List.mem_cons.1 ha with hc | hcs
    · subst hc
      simp [saveContentsLoop, saveContentDispatch,
        audio_save_content_none, pythonTruthyOptNat]
    · by_cases hr : (saveContentDispatch now db m c).1 = true
      · simp only [saveContentsLoop, hr, if_true]
        exact ih _ ⟨a, hcs⟩
      · simp only [saveContentsLoop]
        rw [if_neg hr]

theorem ensureChatExists_fst (now : Int) (db : DBState)
    (m : NormalizedMessage) : (ensureChatExists now db m).1 = true := by
  unfold ensureChatExists
  split <;> rfl

theorem ensureUserExists_fst (now : Int) (db : DBState)
    (m : NormalizedMessage) : (ensureUserExists now db m).1 = true := by
  unfold ensureUserExists
  split
  · rfl
  · split <;> rfl

theorem userStep_fst (now : Int) (db : DBState) (m : NormalizedMessage) :
    (userStep now db m).1 = true := by
  unfold userStep
  split
  · split
    · exact ensureUserExists_fst ..
    · rfl
  · rfl

theorem saveMessageMetadata_fst (now : Int) (db : DBState)
    (m : NormalizedMessage) : (saveMessageMetadata now db m).1 = true := by
  unfold saveMessageMetadata
  split <;> rfl

/-- The three upsert steps preceding the content loop always succeed on
a healthy store, so `save_message` always reaches
`_save_message_contents`. -/
theorem save_message_run (now : Int) (db : DBState) (m : NormalizedMessage) :
    save_message now db m =
      saveMessageContents now
        (saveMessageMetadata now
          (userStep now (ensureChatExists now db m).2 m).2 m).2 m := by
  unfold save_message
  simp [ensureChatExists_fst, userStep_fst, saveMessageMetadata_fst]

/-- C4: for every message whose contents include an audio item,
`save_message` returns false: the audio handler's
`INSERT ... RETURNING` goes through `execute_query`, which returns no
row set for statements not starting with `select`, so the handler
returns a null content id and the content-save step reports failure. -/
theorem c4_audio_save_returns_false (now : Int) (db : DBState)
    (m : NormalizedMessage) (h : ∃ a, Content.audio a ∈ m.contents) :
    (save_message now db m).1 = false := by
  rw [save_message_run]
  exact saveContentsLoop_audio_false now m m.contents _ h

/-- Witness for C4: a message holding one audio item; its save reports
failure. -/
theorem c4_audio_save_returns_false_witness :
    (∃ a, Content.audio a ∈ (sampleMsg [Content.audio audioSample]).contents) ∧
    (save_message 0 dbEmpty (sampleMsg [Content.audio audioSample])).1 =
      false :=
  ⟨⟨audioSample, by simp [sampleMsg]⟩,
   c4_audio_save_returns_false 0 dbEmpty
     (sampleMsg [Content.audio audioSample])
     ⟨audioSample, by simp [sampleMsg]⟩⟩

/-! ## C7 — bootstrap deadlock handling -/

theorem bootstrapLoop_spec (tables : List TableDef) :
    ∀ (n : Nat) (created remaining : List String),
      remaining.length ≤ n →
      (bootstrapLoop tables created remaining).errorLogged =
        (if (bootstrapLoop tables created remaining).unresolved = []
         then none
         else some (bootstrapLoop tables created remaining).unresolved) := by
  intro n
  induction n with
  | zero =>
    intro created remaining hlen
    have hrem : remaining = [] := List.eq_nil_of_length_eq_zero
      (Nat.le_zero.1 hlen)
    subst hrem
    rw [bootstrapLoop]
    simp
  | succ n ih =>
    intro created remaining hlen
    rw [bootstrapLoop]
    by_cases h0 : remaining = []
    · simp [h0]
    · simp only [h0, dite_false]
      by_cases hp :
          (bootstrapPass tables created remaining false).2.2 = true
      · simp only [hp, dite_true]
        exact ih _ _ (by
          have := bootstrapPass_progress_lt tables created remaining hp
          omega)
      · simp [hp, h0]

/-- C7: the claim states that on an unsatisfiable dependency set the
bootstrap aborts with a raised fatal error.  On the concrete input
`[a depends on zzz]` the code logs the unresolved list and `break`s —
`initialize_database` returns normally (`Except.ok`), with `a` still
unresolved and the diagnostic logged, so the claim is false. -/
theorem c7_counterexample :
    initialize_database c7Tables =
      Except.ok ⟨[], ["a"], some ["a"]⟩ := by
  unfold initialize_database c7Tables
  rw [bootstrapLoop]
  simp [bootstrapPass]

/-- C7 (amended): for every table list, schema bootstrap detects the
pass that creates nothing while tables remain pending, logs an error
naming exactly the unresolved tables, and stops retrying — but it
returns normally (`Except.ok`) instead of raising; when nothing is left
pending no error is logged. -/
theorem c7_bootstrap_returns_normally (tables : List TableDef) :
    ∃ r, initialize_database tables = Except.ok r ∧
      r.errorLogged = (if r.unresolved = [] then none else some r.unresolved) := by
  refine ⟨_, rfl, ?_⟩
  exact bootstrapLoop_spec tables (tables.map (fun t => t.name)).length _ _
    le_rfl

/-! ## C6 — tracking expiry -/

/-- C6: the claim states that removal of an expired post also purges
its cached replies and its seen-reply-id set.  In a channel where post
10 (first seen at 0, one cached reply, seen id 5) has expired but post
11 is still live, the cycle does remove post 10 (the count drops to 1),
yet its cached reply and its seen-id set both survive — the claim is
false. -/
theorem c6_counterexample :
    trackedMessagesCount (purgeExpired c6State 50) = 1 ∧
    ¬ cachedRepliesFor (purgeExpired c6State 50) 1 10 = [] ∧
    ¬ seenIdsFor (purgeExpired c6State 50) 1 10 = [] := by
  decide

theorem sum_lengths_filter_ne_nil {α : Type} [DecidableEq α]
    (l : List (Int × List α)) :
    ((l.filter (fun p => ¬ p.2 = [])).map (fun p => p.2.length)).sum =
      (l.map (fun p => p.2.length)).sum := by
  induction l with
  | nil => rfl
  | cons a l ih =>
    simp only [decide_not] at ih
    by_cases h : a.2 = []
    · simp [h, ih]
    · simp [h, ih]

theorem length_filter_map_pair (t : Int) (c : Int) (l : List (Int × Int)) :
    ((l.map (fun q => (c, q.1, q.2))).filter (fun x => x.2.2 > t)).length =
      (l.filter (fun q => q.2 > t)).length := by
  induction l with
  | nil => rfl
  | cons q l ih =>
    by_cases h : q.2 > t <;> simp [h, ih]

theorem length_filter_flatMap_posts (t : Int)
    (l : List (Int × List (Int × Int))) :
    ((l.flatMap (fun p => p.2.map (fun q => (p.1, q.1, q.2)))).filter
        (fun x => x.2.2 > t)).length =
      (l.map (fun p => (p.2.filter (fun q => q.2 > t)).length)).sum := by
  induction l with
  | nil => rfl
  | cons a l ih =>
    simp only [List.flatMap_cons, List.filter_append, List.length_append,
      ih, List.map_cons, List.sum_cons]
    congr 1
    exact length_filter_map_pair t a.1 a.2

theorem find?_filter_of_imp {α : Type} (p q : α → Bool) (l : List α)
    (h : ∀ x, p x = true → q x = true) :
    (l.filter q).find? p = l.find? p := by
  induction l with
  | nil => rfl
  | cons a l ih =>
    by_cases hq : q a = true
    · rw [List.filter_cons_of_pos hq]
      by_cases hp : p a = true
      · rw [List.find?_cons_of_pos _ hp, List.find?_cons_of_pos _ hp]
      · rw [List.find?_cons_of_neg _ (by simp_all),
          List.find?_cons_of_neg _ (by simp_all), ih]
    · have hp : ¬ p a = true := fun hpa => hq (h a hpa)
      rw [List.filter_cons_of_neg (by simp_all), ih,
        List.find?_cons_of_neg _ (by simp_all)]

/-- C6 (amended): a poll cycle removes exactly the posts whose
first-seen time is not newer than the cutoff (`watchedMessageCount`
drops to the number of still-live posts); the seen-reply-id sets are
never purged; a post's cached replies are purged only when its whole
channel has expired — they survive as long as any post of the channel
is still tracked. -/
theorem c6_expiry_behavior (st : TrackerState) (t : Int) :
    trackedMessagesCount (purgeExpired st t) =
      ((trackedPosts st).filter (fun x => x.2.2 > t)).length ∧
    (purgeExpired st t).processedComments = st.processedComments ∧
    (∀ ch msgs, (ch, msgs) ∈ st.trackedMessages →
       msgs.filter (fun q => q.2 > t) = [] →
       ∀ msg, cachedRepliesFor (purgeExpired st t) ch msg = []) ∧
    (∀ ch, ¬ ch ∈ fullyExpiredChannels st t →
       ∀ msg, cachedRepliesFor (purgeExpired st t) ch msg =
         cachedRepliesFor st ch msg) := by
  refine ⟨?_, rfl, ?_, ?_⟩
  · unfold trackedMessagesCount purgeExpired trackedPosts
    rw [length_filter_flatMap_posts]
    simp only []
    rw [sum_lengths_filter_ne_nil]
    simp only [List.map_map]
    rfl
  · intro ch msgs hmem hexp msg
    have hch : ch ∈ fullyExpiredChannels st t := by
      unfold fullyExpiredChannels
      refine List.mem_map.2 ⟨(ch, msgs.filter (fun q => q.2 > t)), ?_, rfl⟩
      refine List.mem_filter.2 ⟨List.mem_map.2 ⟨(ch, msgs), hmem, rfl⟩, ?_⟩
      simp [hexp]
    unfold cachedRepliesFor purgeExpired
    have hnone :
        (st.newCommentsCache.filter (fun p =>
            ¬ p.1 ∈ fullyExpiredChannels st t)).find?
          (fun p => p.1 = ch) = none := by
      rw [List.find?_eq_none]
      intro x hx
      have hkeep := (List.mem_filter.1 hx).2
      intro hxch
      have : x.1 = ch := by simpa using hxch
      rw [this] at hkeep
      simp [hch] at hkeep
    simp only [fullyExpiredChannels] at hnone
    rw [hnone]
  · intro ch hch msg
    unfold cachedRepliesFor purgeExpired
    have heq :
        (st.newCommentsCache.filter (fun p =>
            ¬ p.1 ∈ fullyExpiredChannels st t)).find?
          (fun p => p.1 = ch) =
          st.newCommentsCache.find? (fun p => p.1 = ch) := by
      apply find?_filter_of_imp
      intro x hx
      have : x.1 = ch := by simpa using hx
      simp [this, hch]
    simp only [fullyExpiredChannels] at heq
    rw [heq]

/-- Witness for C6 (amended): with the cutoff past both posts the
channel is fully expired, and post 10's cached replies are purged. -/
theorem c6_expiry_behavior_witness :
    ((1, [(10, 0), (11, 100)]) ∈ c6State.trackedMessages ∧
     ([(10, 0), (11, 100)] : List (Int × Int)).filter
       (fun q => q.2 > (200 : Int)) = []) ∧
    cachedRepliesFor (purgeExpired c6State 200) 1 10 = [] :=
  ⟨⟨by decide, by decide⟩,
   (c6_expiry_behavior c6State 200).2.2.1 1 [(10, 0), (11, 100)]
     (by decide) (by decide) 10⟩

/-! ## C9 — drain ordering and one-shot semantics -/

/-- C9: the claim states that `get_comments` yields one sequence sorted
by post time ascending over the whole drain.  With one channel holding
post 10 (reply dated 10) and post 11 (reply dated 5), the drain yields
the date-10 reply before the date-5 reply — sorting is per post, so the
claim is false. -/
theorem c9_counterexample :
    (get_comments c9State).1 = [⟨1, 10⟩, ⟨2, 5⟩] ∧
    ¬ List.Sorted (fun a b : CachedComment => a.date ≤ b.date)
        (get_comments c9State).1 := by
  constructor
  · decide
  · rw [(by decide : (get_comments c9State).1 = [⟨1, 10⟩, ⟨2, 5⟩])]
    intro h
    rw [List.sorted_cons] at h
    have h10 := h.1 ⟨2, 5⟩ (List.mem_singleton.2 rfl)
    simp at h10

theorem drainChannelMsgs_eq (msgs : List (Int × List CachedComment)) :
    drainChannelMsgs msgs =
      (msgs.flatMap (fun q => sortComments q.2),
       msgs.map (fun q => (q.1, ([] : List CachedComment)))) := by
  induction msgs with
  | nil => rfl
  | cons a rest ih =>
    obtain ⟨mid, comments⟩ := a
    by_cases h : comments = []
    · subst h
      simp [drainChannelMsgs, ih, sortComments, List.insertionSort]
    · simp [drainChannelMsgs, h, ih]

theorem drainCache_fst
    (cache : List (Int × List (Int × List CachedComment))) :
    (drainCache cache).1 =
      cache.flatMap (fun p => p.2.flatMap (fun q => sortComments q.2)) := by
  induction cache with
  | nil => rfl
  | cons a rest ih =>
    obtain ⟨ch, msgs⟩ := a
    simp only [drainCache, drainChannelMsgs_eq, ih]
    split <;> rfl

theorem drainCache_snd_no_comments
    (cache : List (Int × List (Int × List CachedComment))) :
    (drainCache cache).2.flatMap (fun p => p.2.flatMap (fun q => q.2)) =
      [] := by
  induction cache with
  | nil => rfl
  | cons a rest ih =>
    obtain ⟨ch, msgs⟩ := a
    by_cases h : (drainChannelMsgs msgs).2 = []
    · simp [drainCache, h, ih]
    · simp only [drainCache, h, if_false, List.flatMap_cons, ih,
        List.append_nil]
      rw [drainChannelMsgs_eq]
      simp

theorem flatMap_sortComments_perm
    (msgs : List (Int × List CachedComment)) :
    (msgs.flatMap (fun q => sortComments q.2)).Perm
      (msgs.flatMap (fun q => q.2)) := by
  induction msgs with
  | nil => exact List.Perm.refl _
  | cons a rest ih =>
    simp only [List.flatMap_cons]
    exact (List.perm_insertionSort _ a.2).append ih

/-- C9 (amended): a completed drain yields every cached reply exactly
once (the output is a permutation of the cache contents), grouped per
watched post with each post's replies sorted by their own timestamp
ascending — ordering across posts is not guaranteed; afterwards the
cache holds no replies, and `_total_cached` drops by the number
yielded. -/
theorem c9_drain_behavior (st : TrackerState) :
    (get_comments st).1 =
      st.newCommentsCache.flatMap
        (fun p => p.2.flatMap (fun q => sortComments q.2)) ∧
    (get_comments st).1.Perm (allCachedComments st) ∧
    (∀ l, List.Sorted (fun a b : CachedComment => a.date ≤ b.date)
        (sortComments l)) ∧
    allCachedComments (get_comments st).2 = [] ∧
    (get_comments st).2.totalCached =
      st.totalCached - (get_comments st).1.length := by
  refine ⟨?_, ?_, ?_, ?_, rfl⟩
  · show (drainCache st.newCommentsCache).1 = _
    exact drainCache_fst st.newCommentsCache
  · rw [show (get_comments st).1 = (drainCache st.newCommentsCache).1
      from rfl, drainCache_fst]
    unfold allCachedComments
    induction st.newCommentsCache with
    | nil => exact List.Perm.refl _
    | cons a rest ih =>
      simp only [List.flatMap_cons]
      exact (flatMap_sortComments_perm a.2).append ih
  · intro l
    exact List.sorted_insertionSort (fun a b : CachedComment =>
      a.date ≤ b.date) l
  · show (drainCache st.newCommentsCache).2.flatMap _ = _
    exact drainCache_snd_no_comments st.newCommentsCache

/-! ## C5 — converter exception containment -/

/-- C5: the claim states that an exception in any one per-kind
converter never prevents the other content items of the same event from
being extracted.  A raw event with a 4097-character body and a photo:
`TextMessage`'s pydantic validation raises inside the text converter,
which runs outside any `try` in `extract_contents` — the whole
extraction errors and the photo item (which its converter would have
produced) is lost, so the claim is false. -/
theorem c5_counterexample :
    TextConverter.convert rawLongMsg =
      Except.error "text validation failed" ∧
    okPhotoConverters.photoConv rawLongMsg = Except.ok (some photoSample) ∧
    extract_contents okPhotoConverters rawLongMsg =
      Except.error "text validation failed" := by
  have hlen : longText.length = 4097 := by
    have h0 : longText.length = (List.replicate 4097 'a').length := rfl
    rw [h0, List.length_replicate]
  have hne : ¬ longText = "" := by
    intro h
    have h0 := congrArg String.length h
    rw [hlen] at h0
    have h1 : String.length "" = 0 := rfl
    omega
  have hconv : TextConverter.convert rawLongMsg =
      Except.error "text validation failed" := by
    unfold TextConverter.convert rawLongMsg
    rw [if_neg hne, if_pos (by rw [hlen]; omega)]
  refine ⟨hconv, rfl, ?_⟩
  unfold extract_contents rawLongMsg
  rw [if_neg hne]
  rw [show okPhotoConverters.textConv = TextConverter.convert from rfl]
  rw [show (⟨1, longText, some MediaPayload.photoMedia, none⟩ :
       RawParserMsg) = rawLongMsg from rfl, hconv]

/-- C5 (amended): an exception inside a media converter (photo, video,
audio) is caught inside media processing and treated as no content from
that source — the text item is still extracted and returned; but an
exception inside the text converter propagates out of
`extract_contents` and aborts the whole event's extraction. -/
theorem c5_converter_error_containment :
    (∀ (conv : Converters) (m : RawParserMsg) (t : TextContent),
       ¬ m.message = "" → conv.textConv m = Except.ok t →
       extract_contents conv m =
         Except.ok (Content.text t :: processMedia conv m)) ∧
    (∀ (conv : Converters) (m : RawParserMsg) (t : TextContent)
       (e : String),
       ¬ m.message = "" → conv.textConv m = Except.ok t →
       m.media = some MediaPayload.photoMedia →
       conv.photoConv m = Except.error e →
       extract_contents conv m = Except.ok [Content.text t]) ∧
    (∀ (conv : Converters) (m : RawParserMsg) (t : TextContent)
       (e : String) (a an : Bool) (mime : String),
       ¬ m.message = "" → conv.textConv m = Except.ok t →
       m.media = some (MediaPayload.documentMedia true a an mime) →
       conv.videoConv m = Except.error e →
       extract_contents conv m = Except.ok [Content.text t]) := by
  refine ⟨?_, ?_, ?_⟩
  · intro conv m t hm ht
    unfold extract_contents
    rw [if_neg hm, ht]
  · intro conv m t e hm ht hmedia hphoto
    unfold extract_contents
    rw [if_neg hm, ht]
    unfold processMedia
    rw [hmedia, hphoto]
  · intro conv m t e a an mime hm ht hmedia hvideo
    unfold extract_contents
    rw [if_neg hm, ht]
    unfold processMedia
    rw [hmedia]
    simp only [processDocument, if_true, hvideo]
    rfl

/-- Witness for C5 (amended): over an event with body `"hi"` and a
photo, a raising photo converter is contained and the text item is
still returned. -/
theorem c5_converter_error_containment_witness :
    (¬ (⟨1, "hi", some MediaPayload.photoMedia, none⟩ :
         RawParserMsg).message = "" ∧
     errConverters.textConv ⟨1, "hi", some MediaPayload.photoMedia, none⟩ =
       Except.ok ⟨"hi", none⟩) ∧
    extract_contents errConverters
        ⟨1, "hi", some MediaPayload.photoMedia, none⟩ =
      Except.ok [Content.text ⟨"hi", none⟩] :=
  ⟨⟨by decide, rfl⟩,
   c5_converter_error_containment.2.1 errConverters
     ⟨1, "hi", some MediaPayload.photoMedia, none⟩ ⟨"hi", none⟩
     "photo converter raised" (by decide) rfl rfl rfl⟩

/-! ## C1 — double-save behaviour -/

/-- C1: the claim states that saving the same message twice leaves
exactly one row in each content table for its key.  Saving a one-item
text message twice leaves the single `messages` row but TWO `'text'`
rows in `message_contents` (the text handler is a plain INSERT) — the
claim is false. -/
theorem c1_counterexample :
    (messagesRowsFor
      (save_message 1
        (save_message 0 dbEmpty (sampleMsg [Content.text textSample])).2
        (sampleMsg [Content.text textSample])).2 1 100).length = 1 ∧
    ¬ (contentRowsFor
        (save_message 1
          (save_message 0 dbEmpty (sampleMsg [Content.text textSample])).2
          (sampleMsg [Content.text textSample])).2 1 100).length = 1 := by
  constructor
  · decide
  · intro h
    have h2 : (contentRowsFor
        (save_message 1
          (save_message 0 dbEmpty (sampleMsg [Content.text textSample])).2
          (sampleMsg [Content.text textSample])).2 1 100).length = 2 := by
      decide
    omega

theorem ensureChatExists_msgfields (now : Int) (db : DBState)
    (m : NormalizedMessage) :
    (ensureChatExists now db m).2.messages = db.messages ∧
    (ensureChatExists now db m).2.message_contents = db.message_contents ∧
    (ensureChatExists now db m).2.nextContentId = db.nextContentId := by
  unfold ensureChatExists
  split <;> exact ⟨rfl, rfl, rfl⟩

theorem ensureUserExists_msgfields (now : Int) (db : DBState)
    (m : NormalizedMessage) :
    (ensureUserExists now db m).2.messages = db.messages ∧
    (ensureUserExists now db m).2.message_contents = db.message_contents ∧
    (ensureUserExists now db m).2.nextContentId = db.nextContentId := by
  unfold ensureUserExists
  split
  · exact ⟨rfl, rfl, rfl⟩
  · split <;> exact ⟨rfl, rfl, rfl⟩

theorem userStep_msgfields (now : Int) (db : DBState)
    (m : NormalizedMessage) :
    (userStep now db m).2.messages = db.messages ∧
    (userStep now db m).2.message_contents = db.message_contents ∧
    (userStep now db m).2.nextContentId = db.nextContentId := by
  unfold userStep
  split
  · split
    · exact ensureUserExists_msgfields ..
    · exact ⟨rfl, rfl, rfl⟩
  · exact ⟨rfl, rfl, rfl⟩

theorem saveMessageMetadata_otherfields (now : Int) (db : DBState)
    (m : NormalizedMessage) :
    (saveMessageMetadata now db m).2.message_contents =
      db.message_contents ∧
    (saveMessageMetadata now db m).2.nextContentId = db.nextContentId := by
  unfold saveMessageMetadata
  split <;> exact ⟨rfl, rfl⟩

theorem saveContentDispatch_messages (now : Int) (db : DBState)
    (m : NormalizedMessage) (c : Content) :
    (saveContentDispatch now db m c).2.messages = db.messages := by
  cases c with
  | text t => rfl
  | photo p =>
    show (PhotoMessageDBHandler.save_content now db m p).2.messages =
      db.messages
    unfold PhotoMessageDBHandler.save_content
    split
    · rfl
    · split
      · rfl
      · split
        · rfl
        · dsimp only
          split <;> rfl
  | video v => rfl
  | audio a => rfl

theorem saveContentsLoop_messages (now : Int) (m : NormalizedMessage) :
    ∀ (l : List Content) (db : DBState),
      (saveContentsLoop now m db l).2.messages = db.messages := by
  intro l
  induction l with
  | nil => intro db; rfl
  | cons c cs ih =>
    intro db
    by_cases hr : (saveContentDispatch now db m c).1 = true
    · simp only [saveContentsLoop, hr, if_true]
      rw [ih, saveContentDispatch_messages]
    · simp only [saveContentsLoop, hr, if_false]
      exact saveContentDispatch_messages now db m c

theorem coalesce_self {α : Type} (a : Option α) : coalesce a a = a := by
  cases a <;> rfl

theorem any_sub_false {α : Type} (p q : α → Bool) (l : List α)
    (hpq : ∀ x, q x = true → p x = true) (h : l.filter p = []) :
    l.any q = false := by
  rw [List.any_eq_false]
  intro x hx hq
  have hp := hpq x hq
  have := List.filter_eq_nil_iff.1 h x hx
  exact this hp

theorem loop_text_effect (now : Int) (m : NormalizedMessage)
    (t : TextContent) (db : DBState) :
    ∃ row : ContentRow, row.message_id = m.message_id ∧
      row.chat_id = m.chat_id ∧
      saveContentsLoop now m db [Content.text t] =
        (true, { db with
                  message_contents := db.message_contents ++ [row],
                  nextContentId := db.nextContentId + 1 }) := by
  refine ⟨_, ?_, ?_, rfl⟩ <;> rfl

theorem loop_video_effect (now : Int) (m : NormalizedMessage)
    (v : VideoContent) (db : DBState) :
    ∃ row : ContentRow, row.message_id = m.message_id ∧
      row.chat_id = m.chat_id ∧
      saveContentsLoop now m db [Content.video v] =
        (true, { db with
                  message_contents := db.message_contents ++ [row],
                  nextContentId := db.nextContentId + 1 }) := by
  refine ⟨_, ?_, ?_, rfl⟩ <;> rfl

theorem loop_audio_effect (now : Int) (m : NormalizedMessage)
    (a : AudioContent) (db : DBState) :
    ∃ row : ContentRow, row.message_id = m.message_id ∧
      row.chat_id = m.chat_id ∧
      saveContentsLoop now m db [Content.audio a] =
        (false, { db with
                   message_contents := db.message_contents ++ [row],
                   nextContentId := db.nextContentId + 1 }) := by
  refine ⟨{ blankContentRow db.nextContentId m.message_id m.chat_id
      "audio" now with
     file_id := some a.file_id, file_unique_id := some a.file_unique_id,
     file_size := a.file_size, duration := some (Int.ofNat a.duration),
     mime_type := a.mime_type, performer := a.performer, title := a.title,
     thumbnail_url := a.thumbnail_url }, rfl, rfl, ?_⟩
  simp only [saveContentsLoop, saveContentDispatch,
    AudioMessageDBHandler.save_content, audioQuery_not_select]
  rfl

theorem foldl_best_some :
    ∀ (l : List PhotoSize) (b : PhotoSize),
    ∃ r, (l.foldl (fun acc s =>
        match acc with
        | none => some s
        | some cur =>
          if s.width * s.height > cur.width * cur.height then some s
          else some cur) (some b)) = some r := by
  intro l
  induction l with
  | nil => intro b; exact ⟨b, rfl⟩
  | cons s l ih =>
    intro b
    simp only [List.foldl_cons]
    by_cases h : s.width * s.height > b.width * b.height
    · simpa [h] using ih s
    · simpa [h] using ih b

theorem best_quality_some (p : PhotoContent) (h : ¬ p.photo = []) :
    ∃ b, p.best_quality = some b := by
  unfold PhotoContent.best_quality
  cases hp : p.photo with
  | nil => exact absurd hp h
  | cons s l =>
    simp only [List.foldl_cons]
    exact foldl_best_some l s

theorem loop_photo_insert_effect (now : Int) (m : NormalizedMessage)
    (p : PhotoContent) (db : DBState)
    (hval : ¬ p.photo = [])
    (hbest : ∀ best, p.best_quality = some best → ¬ best.file_id = "")
    (hno : db.message_contents.any (fun r =>
        r.message_id = m.message_id ∧ r.chat_id = m.chat_id ∧
        r.content_type = "photo") = false) :
    ∃ row : ContentRow, row.message_id = m.message_id ∧
      row.chat_id = m.chat_id ∧ row.content_type = "photo" ∧
      saveContentsLoop now m db [Content.photo p] =
        (true, { db with
                  message_contents := db.message_contents ++ [row],
                  nextContentId := db.nextContentId + 1 }) := by
  obtain ⟨best, hb⟩ := best_quality_some p hval
  refine ⟨{ blankContentRow db.nextContentId m.message_id m.chat_id
      "photo" now with
     media_group_id := m.media_group_id,
     caption := p.caption,
     file_id := some best.file_id,
     file_unique_id := some best.file_unique_id,
     file_size := best.file_size,
     width := some (Int.ofNat best.width),
     height := some (Int.ofNat best.height),
     binary_data := match best.image_data with
       | some b => if b.length > 5000000 then none else some b
       | none => none }, rfl, rfl, rfl, ?_⟩
  simp only [saveContentsLoop, saveContentDispatch]
  unfold PhotoMessageDBHandler.save_content
  rw [if_neg hval, hb]
  dsimp only
  rw [if_neg (hbest best hb), hno]
  rfl

theorem length_filter_map_inv {α : Type} (p : α → Bool) (f : α → α)
    (hf : ∀ a, p (f a) = p a) (l : List α) :
    ((l.map f).filter p).length = (l.filter p).length := by
  induction l with
  | nil => rfl
  | cons a l ih =>
    by_cases h : p a = true
    · rw [List.map_cons, List.filter_cons_of_pos (by rw [hf]; exact h),
        List.filter_cons_of_pos h]
      simp [ih]
    · rw [List.map_cons, List.filter_cons_of_neg (by rw [hf]; exact h),
        List.filter_cons_of_neg h, ih]

theorem loop_photo_update_effect (now : Int) (m : NormalizedMessage)
    (p : PhotoContent) (db : DBState)
    (hval : ¬ p.photo = [])
    (hbest : ∀ best, p.best_quality = some best → ¬ best.file_id = "")
    (hyes : db.message_contents.any (fun r =>
        r.message_id = m.message_id ∧ r.chat_id = m.chat_id ∧
        r.content_type = "photo") = true) :
    ∃ f : ContentRow → ContentRow,
      (∀ r, (f r).message_id = r.message_id ∧ (f r).chat_id = r.chat_id) ∧
      saveContentsLoop now m db [Content.photo p] =
        (true, { db with
                  message_contents := db.message_contents.map f }) := by
  obtain ⟨best, hb⟩ := best_quality_some p hval
  refine ⟨fun r =>
    if r.message_id = m.message_id ∧ r.chat_id = m.chat_id ∧
        r.content_type = "photo" then
      { r with
         media_group_id := m.media_group_id,
         caption := p.caption,
         file_id := some best.file_id,
         file_unique_id := some best.file_unique_id,
         file_size := best.file_size,
         width := some (Int.ofNat best.width),
         height := some (Int.ofNat best.height),
         binary_data := match best.image_data with
           | some b => if b.length > 5000000 then none else some b
           | none => none,
         created_at := now }
    else r, ?_, ?_⟩
  · intro r
    dsimp only
    by_cases hc : r.message_id = m.message_id ∧ r.chat_id = m.chat_id ∧
        r.content_type = "photo"
    · rw [if_pos hc]
      exact ⟨rfl, rfl⟩
    · rw [if_neg hc]
      exact ⟨rfl, rfl⟩
  · simp only [saveContentsLoop, saveContentDispatch]
    unfold PhotoMessageDBHandler.save_content
    rw [if_neg hval, hb]
    dsimp only
    rw [if_neg (hbest best hb), hyes]
    rfl

theorem saveMessageMetadata_insert (now : Int) (db : DBState)
    (m : NormalizedMessage)
    (h : messagesRowsFor db m.message_id m.chat_id = []) :
    (saveMessageMetadata now db m).2.messages =
      db.messages ++ [messagesRowOf now m] := by
  unfold saveMessageMetadata
  rw [any_sub_false _ _ _ (fun x hx => hx) h]
  rfl

theorem msgsFor_nil {db : DBState} {m : NormalizedMessage}
    (h : messagesRowsFor db m.message_id m.chat_id = []) :
    ∀ r ∈ db.messages,
      ¬ (r.message_id = m.message_id ∧ r.chat_id = m.chat_id) := by
  intro r hr hk
  exact List.filter_eq_nil_iff.1 h r hr (decide_eq_true hk)

theorem map_if_no_match {α : Type} (cond : α → Prop) [DecidablePred cond]
    (f : α → α) (l : List α) (h : ∀ a ∈ l, ¬ cond a) :
    l.map (fun a => if cond a then f a else a) = l := by
  induction l with
  | nil => rfl
  | cons a l ih =>
    rw [List.map_cons, if_neg (h a (List.mem_cons_self a l)),
      ih (fun b hb => h b (List.mem_cons_of_mem a hb))]

theorem saveMessageMetadata_update_self (now1 now2 : Int)
    (db' db : DBState) (m : NormalizedMessage)
    (h : messagesRowsFor db m.message_id m.chat_id = [])
    (hm : db'.messages = db.messages ++ [messagesRowOf now1 m]) :
    (saveMessageMetadata now2 db' m).2.messages =
      db.messages ++ [messagesRowOf now1 m] := by
  unfold saveMessageMetadata
  rw [hm]
  have hany : ((db.messages ++ [messagesRowOf now1 m]).any (fun r =>
        r.message_id = m.message_id ∧ r.chat_id = m.chat_id)) = true := by
    apply List.any_eq_true.2
    refine ⟨messagesRowOf now1 m, List.mem_append_right _ (by simp), ?_⟩
    simp [messagesRowOf]
  rw [hany]
  simp only [if_true]
  rw [List.map_append]
  congr 1
  · exact map_if_no_match
      (fun r => r.message_id = m.message_id ∧ r.chat_id = m.chat_id)
      (fun r => { r with
         text := coalesce m.text r.text,
         edit_date := coalesce m.edit_date r.edit_date,
         views := coalesce m.views r.views,
         forwards := coalesce m.forwards r.forwards })
      db.messages (msgsFor_nil h)
  · rw [List.map_cons, List.map_nil, if_pos (by simp [messagesRowOf])]
    show [{ messagesRowOf now1 m with
        text := coalesce m.text m.text,
        edit_date := coalesce m.edit_date m.edit_date,
        views := coalesce m.views m.views,
        forwards := coalesce m.forwards m.forwards }] = _
    rw [coalesce_self, coalesce_self, coalesce_self, coalesce_self]
    rfl

theorem preMeta_fields (now : Int) (db : DBState) (m : NormalizedMessage) :
    (userStep now (ensureChatExists now db m).2 m).2.messages =
      db.messages ∧
    (userStep now (ensureChatExists now db m).2 m).2.message_contents =
      db.message_contents ∧
    (userStep now (ensureChatExists now db m).2 m).2.nextContentId =
      db.nextContentId := by
  obtain ⟨h1, h2, h3⟩ := ensureChatExists_msgfields now db m
  obtain ⟨g1, g2, g3⟩ :=
    userStep_msgfields now (ensureChatExists now db m).2 m
  exact ⟨g1.trans h1, g2.trans h2, g3.trans h3⟩

/-- The store reached after the metadata upsert of a first save of `m`
into a store with no `messages` row for its key: the row of `m` is
appended and the content side is untouched. -/
theorem firstSave_preContents_fields (now : Int) (db : DBState)
    (m : NormalizedMessage)
    (hmsg : messagesRowsFor db m.message_id m.chat_id = []) :
    (saveMessageMetadata now
        (userStep now (ensureChatExists now db m).2 m).2 m).2.messages =
      db.messages ++ [messagesRowOf now m] ∧
    (saveMessageMetadata now
        (userStep now (ensureChatExists now db m).2 m).2
        m).2.message_contents = db.message_contents ∧
    (saveMessageMetadata now
        (userStep now (ensureChatExists now db m).2 m).2
        m).2.nextContentId = db.nextContentId := by
  obtain ⟨h1, h2, h3⟩ := preMeta_fields now db m
  obtain ⟨o1, o2⟩ := saveMessageMetadata_otherfields now
    (userStep now (ensureChatExists now db m).2 m).2 m
  refine ⟨?_, o1.trans h2, o2.trans h3⟩
  have hA : messagesRowsFor
      (userStep now (ensureChatExists now db m).2 m).2
      m.message_id m.chat_id = [] := by
    show List.filter _ (userStep now (ensureChatExists now db m).2 m).2.messages = []
    rw [h1]
    exact hmsg
  rw [saveMessageMetadata_insert now _ m hA, h1]

/-- The `messages` filter keeps exactly the row of `m`. -/
theorem filter_messages_single (now1 : Int) (db : DBState)
    (m : NormalizedMessage)
    (hmsg : messagesRowsFor db m.message_id m.chat_id = []) :
    (db.messages ++ [messagesRowOf now1 m]).filter (fun r =>
        r.message_id = m.message_id ∧ r.chat_id = m.chat_id) =
      [messagesRowOf now1 m] := by
  rw [List.filter_append]
  have h1 : db.messages.filter (fun r =>
      r.message_id = m.message_id ∧ r.chat_id = m.chat_id) = [] := hmsg
  rw [h1]
  simp [messagesRowOf]

/-- C1 (amended): saving a single-content message twice (same message,
fresh key) leaves exactly one `messages` row — all of whose fields,
mutable ones included, equal the first save's values, since the second
save COALESCEs the same non-null values — while the content tables get
ONE row only for photo (update-in-place); text, video and audio rows
are inserted again on every save, so two saves leave two rows. -/
theorem c1_double_save (now1 now2 : Int) (db : DBState)
    (m : NormalizedMessage) (c : Content) (hc : m.contents = [c])
    (hmsg : messagesRowsFor db m.message_id m.chat_id = [])
    (hcont : contentRowsFor db m.message_id m.chat_id = [])
    (hphoto : ∀ p, c = Content.photo p → ¬ p.photo = [] ∧
       ∀ best, p.best_quality = some best → ¬ best.file_id = "") :
    messagesRowsFor (save_message now2 (save_message now1 db m).2 m).2
        m.message_id m.chat_id = [messagesRowOf now1 m] ∧
    (contentRowsFor (save_message now2 (save_message now1 db m).2 m).2
        m.message_id m.chat_id).length = doubleSaveContentCount c := by
  have hrun1 := save_message_run now1 db m
  have hrun2 := save_message_run now2 (save_message now1 db m).2 m
  obtain ⟨hB1m, hB1c, hB1n⟩ := firstSave_preContents_fields now1 db m hmsg
  obtain ⟨hA2m, hA2c, hA2n⟩ :=
    preMeta_fields now2 (save_message now1 db m).2 m
  obtain ⟨hB2c, hB2n⟩ := saveMessageMetadata_otherfields now2
    (userStep now2
      (ensureChatExists now2 (save_message now1 db m).2 m).2 m).2 m
  have hcont' : db.message_contents.filter (fun r =>
      r.message_id = m.message_id ∧ r.chat_id = m.chat_id) = [] := hcont
  cases c with
  | text t =>
    obtain ⟨row1, hr1m, hr1c, hloop1⟩ := loop_text_effect now1 m t
      (saveMessageMetadata now1
        (userStep now1 (ensureChatExists now1 db m).2 m).2 m).2
    have hd1c : (save_message now1 db m).2.message_contents =
        db.message_contents ++ [row1] := by
      rw [hrun1]
      unfold saveMessageContents
      rw [hc]
      show (saveContentsLoop now1 m _ [Content.text t]).2.message_contents = _
      rw [hloop1]
      dsimp only
      rw [hB1c]
    have hd1m : (save_message now1 db m).2.messages =
        db.messages ++ [messagesRowOf now1 m] := by
      rw [hrun1]
      unfold saveMessageContents
      rw [hc]
      show (saveContentsLoop now1 m _ [Content.text t]).2.messages = _
      rw [hloop1]
      dsimp only
      exact hB1m
    have hB2m := saveMessageMetadata_update_self now1 now2 _ db m hmsg
      (hA2m.trans hd1m)
    obtain ⟨row2, hr2m, hr2c, hloop2⟩ := loop_text_effect now2 m t
      (saveMessageMetadata now2
        (userStep now2
          (ensureChatExists now2 (save_message now1 db m).2 m).2 m).2 m).2
    constructor
    · show (save_message now2 (save_message now1 db m).2
          m).2.messages.filter _ = _
      rw [hrun2]
      unfold saveMessageContents
      rw [hc]
      show (saveContentsLoop now2 m _ [Content.text t]).2.messages.filter _ = _
      rw [hloop2]
      dsimp only
      rw [hB2m]
      exact filter_messages_single now1 db m hmsg
    · show ((save_message now2 (save_message now1 db m).2
          m).2.message_contents.filter _).length = _
      rw [hrun2]
      unfold saveMessageContents
      rw [hc]
      show ((saveContentsLoop now2 m _
          [Content.text t]).2.message_contents.filter _).length = _
      rw [hloop2]
      dsimp only
      rw [hB2c, hA2c, hd1c, List.filter_append, List.filter_append, hcont']
      simp [hr1m, hr1c, hr2m, hr2c, doubleSaveContentCount]
  | video v =>
    obtain ⟨row1, hr1m, hr1c, hloop1⟩ := loop_video_effect now1 m v
      (saveMessageMetadata now1
        (userStep now1 (ensureChatExists now1 db m).2 m).2 m).2
    have hd1c : (save_message now1 db m).2.message_contents =
        db.message_contents ++ [row1] := by
      rw [hrun1]
      unfold saveMessageContents
      rw [hc]
      show (saveContentsLoop now1 m _ [Content.video v]).2.message_contents = _
      rw [hloop1]
      dsimp only
      rw [hB1c]
    have hd1m : (save_message now1 db m).2.messages =
        db.messages ++ [messagesRowOf now1 m] := by
      rw [hrun1]
      unfold saveMessageContents
      rw [hc]
      show (saveContentsLoop now1 m _ [Content.video v]).2.messages = _
      rw [hloop1]
      dsimp only
      exact hB1m
    have hB2m := saveMessageMetadata_update_self now1 now2 _ db m hmsg
      (hA2m.trans hd1m)
    obtain ⟨row2, hr2m, hr2c, hloop2⟩ := loop_video_effect now2 m v
      (saveMessageMetadata now2
        (userStep now2
          (ensureChatExists now2 (save_message now1 db m).2 m).2 m).2 m).2
    constructor
    · show (save_message now2 (save_message now1 db m).2
          m).2.messages.filter _ = _
      rw [hrun2]
      unfold saveMessageContents
      rw [hc]
      show (saveContentsLoop now2 m _ [Content.video v]).2.messages.filter _ = _
      rw [hloop2]
      dsimp only
      rw [hB2m]
      exact filter_messages_single now1 db m hmsg
    · show ((save_message now2 (save_message now1 db m).2
          m).2.message_contents.filter _).length = _
      rw [hrun2]
      unfold saveMessageContents
      rw [hc]
      show ((saveContentsLoop now2 m _
          [Content.video v]).2.message_contents.filter _).length = _
      rw [hloop2]
      dsimp only
      rw [hB2c, hA2c, hd1c, List.filter_append, List.filter_append, hcont']
      simp [hr1m, hr1c, hr2m, hr2c, doubleSaveContentCount]
  | audio a =>
    obtain ⟨row1, hr1m, hr1c, hloop1⟩ := loop_audio_effect now1 m a
      (saveMessageMetadata now1
        (userStep now1 (ensureChatExists now1 db m).2 m).2 m).2
    have hd1c : (save_message now1 db m).2.message_contents =
        db.message_contents ++ [row1] := by
      rw [hrun1]
      unfold saveMessageContents
      rw [hc]
      show (saveContentsLoop now1 m _ [Content.audio a]).2.message_contents = _
      rw [hloop1]
      dsimp only
      rw [hB1c]
    have hd1m : (save_message now1 db m).2.messages =
        db.messages ++ [messagesRowOf now1 m] := by
      rw [hrun1]
      unfold saveMessageContents
      rw [hc]
      show (saveContentsLoop now1 m _ [Content.audio a]).2.messages = _
      rw [hloop1]
      dsimp only
      exact hB1m
    have hB2m := saveMessageMetadata_update_self now1 now2 _ db m hmsg
      (hA2m.trans hd1m)
    obtain ⟨row2, hr2m, hr2c, hloop2⟩ := loop_audio_effect now2 m a
      (saveMessageMetadata now2
        (userStep now2
          (ensureChatExists now2 (save_message now1 db m).2 m).2 m).2 m).2
    constructor
    · show (save_message now2 (save_message now1 db m).2
          m).2.messages.filter _ = _
      rw [hrun2]
      unfold saveMessageContents
      rw [hc]
      show (saveContentsLoop now2 m _ [Content.audio a]).2.messages.filter _ = _
      rw [hloop2]
      dsimp only
      rw [hB2m]
      exact filter_messages_single now1 db m hmsg
    · show ((save_message now2 (save_message now1 db m).2
          m).2.message_contents.filter _).length = _
      rw [hrun2]
      unfold saveMessageContents
      rw [hc]
      show ((saveContentsLoop now2 m _
          [Content.audio a]).2.message_contents.filter _).length = _
      rw [hloop2]
      dsimp only
      rw [hB2c, hA2c, hd1c, List.filter_append, List.filter_append, hcont']
      simp [hr1m, hr1c, hr2m, hr2c, doubleSaveContentCount]
  | photo p =>
    obtain ⟨hval, hbest⟩ := hphoto p rfl
    have hno1 : ((saveMessageMetadata now1
        (userStep now1 (ensureChatExists now1 db m).2 m).2
        m).2.message_contents.any (fun r =>
          r.message_id = m.message_id ∧ r.chat_id = m.chat_id ∧
          r.content_type = "photo")) = false := by
      apply any_sub_false (fun r =>
        decide (r.message_id = m.message_id ∧ r.chat_id = m.chat_id))
      · intro x hx
        have hh := of_decide_eq_true hx
        exact decide_eq_true ⟨hh.1, hh.2.1⟩
      · rw [hB1c]
        exact hcont'
    obtain ⟨row1, hr1m, hr1c, hr1t, hloop1⟩ :=
      loop_photo_insert_effect now1 m p
        (saveMessageMetadata now1
          (userStep now1 (ensureChatExists now1 db m).2 m).2 m).2
        hval hbest hno1
    have hd1c : (save_message now1 db m).2.message_contents =
        db.message_contents ++ [row1] := by
      rw [hrun1]
      unfold saveMessageContents
      rw [hc]
      show (saveContentsLoop now1 m _ [Content.photo p]).2.message_contents = _
      rw [hloop1]
      dsimp only
      rw [hB1c]
    have hd1m : (save_message now1 db m).2.messages =
        db.messages ++ [messagesRowOf now1 m] := by
      rw [hrun1]
      unfold saveMessageContents
      rw [hc]
      show (saveContentsLoop now1 m _ [Content.photo p]).2.messages = _
      rw [hloop1]
      dsimp only
      exact hB1m
    have hB2m := saveMessageMetadata_update_self now1 now2 _ db m hmsg
      (hA2m.trans hd1m)
    have hyes2 : ((saveMessageMetadata now2
        (userStep now2
          (ensureChatExists now2 (save_message now1 db m).2 m).2 m).2
        m).2.message_contents.any (fun r =>
          r.message_id = m.message_id ∧ r.chat_id = m.chat_id ∧
          r.content_type = "photo")) = true := by
      rw [hB2c, hA2c, hd1c]
      apply List.any_eq_true.2
      exact ⟨row1, List.mem_append_right _ (by simp),
        decide_eq_true ⟨hr1m, hr1c, hr1t⟩⟩
    obtain ⟨f, hf, hloop2⟩ := loop_photo_update_effect now2 m p
      (saveMessageMetadata now2
        (userStep now2
          (ensureChatExists now2 (save_message now1 db m).2 m).2 m).2 m).2
      hval hbest hyes2
    constructor
    · show (save_message now2 (save_message now1 db m).2
          m).2.messages.filter _ = _
      rw [hrun2]
      unfold saveMessageContents
      rw [hc]
      show (saveContentsLoop now2 m _
          [Content.photo p]).2.messages.filter _ = _
      rw [hloop2]
      dsimp only
      rw [hB2m]
      exact filter_messages_single now1 db m hmsg
    · show ((save_message now2 (save_message now1 db m).2
          m).2.message_contents.filter _).length = _
      rw [hrun2]
      unfold saveMessageContents
      rw [hc]
      show ((saveContentsLoop now2 m _
          [Content.photo p]).2.message_contents.filter _).length = _
      rw [hloop2]
      dsimp only
      rw [length_filter_map_inv _ f (fun a => by
        obtain ⟨h1, h2⟩ := hf a
        simp [h1, h2])]
      rw [hB2c, hA2c, hd1c, List.filter_append, hcont']
      simp [hr1m, hr1c, doubleSaveContentCount]

/-- Witness for C1 (amended): a one-item text message saved twice into
the empty store leaves two `'text'` content rows. -/
theorem c1_double_save_witness :
    ((sampleMsg [Content.text textSample]).contents =
       [Content.text textSample] ∧
     messagesRowsFor dbEmpty 1 100 = [] ∧
     contentRowsFor dbEmpty 1 100 = []) ∧
    (contentRowsFor (save_message 1
        (save_message 0 dbEmpty (sampleMsg [Content.text textSample])).2
        (sampleMsg [Content.text textSample])).2 1 100).length =
      doubleSaveContentCount (Content.text textSample) :=
  ⟨⟨rfl, rfl, rfl⟩,
   (c1_double_save 0 1 dbEmpty (sampleMsg [Content.text textSample])
      (Content.text textSample) rfl rfl rfl
      (fun _ hp => Content.noConfusion hp)).2⟩

/-! ## C3 — load/save symmetry -/

/-- C3: the claim states a message saved with any of the four content
kinds can be reconstructed.  On the concrete photo message the save
succeeds, yet `load_message` returns null: the photo handler has no
`load_content`, so the dispatch raises `AttributeError`, which
`_load_message_contents` catches into an overall null — the claim is
false. -/
theorem c3_counterexample :
    (save_message 0 dbEmpty (sampleMsg [Content.photo photoSample])).1 =
      true ∧
    "photo" ∈ distinctContentTypes
      (save_message 0 dbEmpty (sampleMsg [Content.photo photoSample])).2
      1 100 ∧
    load_message
      (save_message 0 dbEmpty (sampleMsg [Content.photo photoSample])).2
      1 100 = none := by
  refine ⟨by decide, by decide, by decide⟩

theorem filter_sub_nil {α : Type} (p q : α → Bool) (l : List α)
    (hpq : ∀ x, q x = true → p x = true) (h : l.filter p = []) :
    l.filter q = [] := by
  rw [List.filter_eq_nil_iff]
  intro x hx hq
  exact List.filter_eq_nil_iff.1 h x hx (hpq x hq)

theorem loadContentsLoop_none (db : DBState) (mid cid : Int) :
    ∀ (ts : List String) (acc : List LoadedContent) (t : String),
      t ∈ ts → handlerLoadContent t = some none →
      loadContentsLoop db mid cid ts acc = none := by
  intro ts
  induction ts with
  | nil =>
    intro acc t ht
    exact absurd ht (List.not_mem_nil t)
  | cons s ts ih =>
    intro acc t ht hh
    rcases List.mem_cons.1 ht with heq | hmem
    · subst heq
      simp only [loadContentsLoop, hh]
    · cases hs : handlerLoadContent s with
      | none =>
        simp only [loadContentsLoop, hs]
        exact ih acc t hmem hh
      | some o =>
        cases o with
        | none => simp only [loadContentsLoop, hs]
        | some f =>
          simp only [loadContentsLoop, hs]
          cases hf : f db mid cid with
          | none => exact ih acc t hmem hh
          | some c => exact ih _ t hmem hh

theorem load_message_none_of_missing_handler (db : DBState)
    (mid cid : Int) (t : String)
    (ht : t ∈ distinctContentTypes db mid cid)
    (hh : handlerLoadContent t = some none) :
    load_message db mid cid = none := by
  unfold load_message
  cases hmeta : loadMessageMetadata db mid cid with
  | none => rfl
  | some meta =>
    cases hchat : loadChatInfo db cid with
    | none => rfl
    | some chat =>
      have hcontents : loadMessageContents db mid cid = none :=
        loadContentsLoop_none db mid cid _ [] t ht hh
      rw [hcontents]

theorem ensureChatExists_fresh (now : Int) (db : DBState)
    (m : NormalizedMessage)
    (hchat : db.chats.filter (fun r => r.chat_id = m.chat_id) = []) :
    (ensureChatExists now db m).2.chats =
      db.chats ++ [⟨m.chat_id, m.chat_type, m.title, m.description,
        m.invite_link, now, now⟩] := by
  unfold ensureChatExists
  rw [any_sub_false _ _ _ (fun x hx => hx) hchat]
  rfl

theorem ensureUserExists_chats (now : Int) (db : DBState)
    (m : NormalizedMessage) :
    (ensureUserExists now db m).2.chats = db.chats := by
  unfold ensureUserExists
  split
  · rfl
  · split <;> rfl

theorem userStep_chats (now : Int) (db : DBState) (m : NormalizedMessage) :
    (userStep now db m).2.chats = db.chats := by
  unfold userStep
  split
  · split
    · exact ensureUserExists_chats ..
    · rfl
  · rfl

theorem saveMessageMetadata_chats (now : Int) (db : DBState)
    (m : NormalizedMessage) :
    (saveMessageMetadata now db m).2.chats = db.chats := by
  unfold saveMessageMetadata
  split <;> rfl

theorem saveContentDispatch_chats (now : Int) (db : DBState)
    (m : NormalizedMessage) (c : Content) :
    (saveContentDispatch now db m c).2.chats = db.chats := by
  cases c with
  | text t => rfl
  | photo p =>
    show (PhotoMessageDBHandler.save_content now db m p).2.chats = db.chats
    unfold PhotoMessageDBHandler.save_content
    split
    · rfl
    · split
      · rfl
      · split
        · rfl
        · dsimp only
          split <;> rfl
  | video v => rfl
  | audio a => rfl

theorem saveContentsLoop_chats (now : Int) (m : NormalizedMessage) :
    ∀ (l : List Content) (db : DBState),
      (saveContentsLoop now m db l).2.chats = db.chats := by
  intro l
  induction l with
  | nil => intro db; rfl
  | cons c cs ih =>
    intro db
    by_cases hr : (saveContentDispatch now db m c).1 = true
    · simp only [saveContentsLoop, hr, if_true]
      rw [ih, saveContentDispatch_chats]
    · simp only [saveContentsLoop, hr, if_false]
      exact saveContentDispatch_chats now db m c

/-- The store after a first save of `m` into a fresh store, chats
included. -/
theorem firstSave_chats (now : Int) (db : DBState) (m : NormalizedMessage)
    (hchat : db.chats.filter (fun r => r.chat_id = m.chat_id) = []) :
    (save_message now db m).2.chats =
      db.chats ++ [⟨m.chat_id, m.chat_type, m.title, m.description,
        m.invite_link, now, now⟩] := by
  rw [save_message_run]
  unfold saveMessageContents
  rw [saveContentsLoop_chats, saveMessageMetadata_chats, userStep_chats]
  exact ensureChatExists_fresh now db m hchat

theorem loop_text_row (now : Int) (m : NormalizedMessage)
    (t : TextContent) (db : DBState) :
    saveContentsLoop now m db [Content.text t] =
      (true, { db with
        message_contents := db.message_contents ++
          [{ blankContentRow db.nextContentId m.message_id m.chat_id
              "text" now with
             media_group_id := m.media_group_id,
             text_content := some t.text,
             caption := t.caption }],
        nextContentId := db.nextContentId + 1 }) := rfl

theorem loop_video_row (now : Int) (m : NormalizedMessage)
    (v : VideoContent) (db : DBState) :
    saveContentsLoop now m db [Content.video v] =
      (true, { db with
        message_contents := db.message_contents ++
          [{ blankContentRow db.nextContentId m.message_id m.chat_id
              "video" now with
             media_group_id := m.media_group_id,
             caption := v.caption,
             file_id := some v.file_id,
             file_unique_id := some v.file_unique_id,
             file_size := v.file_size,
             width := some (Int.ofNat v.width),
             height := some (Int.ofNat v.height),
             duration := some (Int.ofNat v.duration),
             mime_type := v.mime_type,
             thumbnail_url := v.thumbnail.map (fun th => th.file_id),
             binary_data := match v.video_bytes with
               | some b => if b.length > 50000000 then none else some b
               | none => none }],
        nextContentId := db.nextContentId + 1 }) := rfl

theorem text_roundtrip_aux (now : Int) (db : DBState)
    (m : NormalizedMessage) (t : TextContent)
    (hc : m.contents = [Content.text t])
    (hmsg : messagesRowsFor db m.message_id m.chat_id = [])
    (hcont : contentRowsFor db m.message_id m.chat_id = [])
    (hchat : db.chats.filter (fun r => r.chat_id = m.chat_id) = []) :
    load_message (save_message now db m).2 m.message_id m.chat_id =
      some ⟨m.message_id, m.chat_id, m.chat_type, m.user_id, m.title,
            m.text, [LoadedContent.text ⟨t.text, t.caption⟩]⟩ := by
  have hcont' : db.message_contents.filter (fun r =>
      r.message_id = m.message_id ∧ r.chat_id = m.chat_id) = [] := hcont
  obtain ⟨hB1m, hB1c, hB1n⟩ := firstSave_preContents_fields now db m hmsg
  have hd1m : (save_message now db m).2.messages =
      db.messages ++ [messagesRowOf now m] := by
    rw [save_message_run]
    unfold saveMessageContents
    rw [hc, loop_text_row]
    dsimp only
    exact hB1m
  have hd1c : (save_message now db m).2.message_contents =
      db.message_contents ++
        [{ blankContentRow db.nextContentId m.message_id m.chat_id
            "text" now with
           media_group_id := m.media_group_id,
           text_content := some t.text,
           caption := t.caption }] := by
    rw [save_message_run]
    unfold saveMessageContents
    rw [hc, loop_text_row]
    dsimp only
    rw [hB1c, hB1n]
  have hd1ch := firstSave_chats now db m hchat
  have hmeta : loadMessageMetadata (save_message now db m).2
      m.message_id m.chat_id = some (messagesRowOf now m) := by
    unfold loadMessageMetadata
    rw [hd1m, filter_messages_single now db m hmsg]
    rfl
  have hchatload : loadChatInfo (save_message now db m).2 m.chat_id =
      some ⟨m.chat_id, m.chat_type, m.title, m.description,
        m.invite_link, now, now⟩ := by
    unfold loadChatInfo
    rw [hd1ch, List.filter_append, hchat]
    simp
  have htypes : distinctContentTypes (save_message now db m).2
      m.message_id m.chat_id = ["text"] := by
    unfold distinctContentTypes
    rw [hd1c, List.filter_append, hcont']
    simp [blankContentRow, List.dedup]
  have htextload : TextMessageDBHandler.load_content
      (save_message now db m).2 m.message_id m.chat_id =
      some ⟨t.text, t.caption⟩ := by
    unfold TextMessageDBHandler.load_content
    rw [hd1c, List.filter_append]
    rw [filter_sub_nil (fun r =>
        decide (r.message_id = m.message_id ∧ r.chat_id = m.chat_id))
      _ db.message_contents (fun x hx => by
        have hh := of_decide_eq_true hx
        exact decide_eq_true ⟨hh.1, hh.2.1⟩) hcont']
    simp [blankContentRow]
  have hload : loadMessageContents (save_message now db m).2
      m.message_id m.chat_id =
      some [LoadedContent.text ⟨t.text, t.caption⟩] := by
    unfold loadMessageContents
    rw [htypes]
    simp only [loadContentsLoop, handlerLoadContent, htextload,
      Option.map_some]
    rfl
  unfold load_message
  rw [hmeta, hchatload, hload]
  rfl

theorem video_roundtrip_aux (now : Int) (db : DBState)
    (m : NormalizedMessage) (v : VideoContent)
    (hc : m.contents = [Content.video v])
    (hmsg : messagesRowsFor db m.message_id m.chat_id = [])
    (hcont : contentRowsFor db m.message_id m.chat_id = [])
    (hchat : db.chats.filter (fun r => r.chat_id = m.chat_id) = []) :
    load_message (save_message now db m).2 m.message_id m.chat_id =
      some ⟨m.message_id, m.chat_id, m.chat_type, m.user_id, m.title,
            m.text,
            [LoadedContent.videoDict v.caption (some v.file_id)
              (some v.file_unique_id) v.file_size
              (some (Int.ofNat v.width)) (some (Int.ofNat v.height))
              (some (Int.ofNat v.duration)) v.mime_type
              (v.thumbnail.map (fun th => th.file_id))
              (match v.video_bytes with
               | some b => if b.length > 50000000 then none else some b
               | none => none)
              m.media_group_id]⟩ := by
  have hcont' : db.message_contents.filter (fun r =>
      r.message_id = m.message_id ∧ r.chat_id = m.chat_id) = [] := hcont
  obtain ⟨hB1m, hB1c, hB1n⟩ := firstSave_preContents_fields now db m hmsg
  have hd1m : (save_message now db m).2.messages =
      db.messages ++ [messagesRowOf now m] := by
    rw [save_message_run]
    unfold saveMessageContents
    rw [hc, loop_video_row]
    dsimp only
    exact hB1m
  have hd1c : (save_message now db m).2.message_contents =
      db.message_contents ++
        [{ blankContentRow db.nextContentId m.message_id m.chat_id
            "video" now with
           media_group_id := m.media_group_id,
           caption := v.caption,
           file_id := some v.file_id,
           file_unique_id := some v.file_unique_id,
           file_size := v.file_size,
           width := some (Int.ofNat v.width),
           height := some (Int.ofNat v.height),
           duration := some (Int.ofNat v.duration),
           mime_type := v.mime_type,
           thumbnail_url := v.thumbnail.map (fun th => th.file_id),
           binary_data := match v.video_bytes with
             | some b => if b.length > 50000000 then none else some b
             | none => none }] := by
    rw [save_message_run]
    unfold saveMessageContents
    rw [hc, loop_video_row]
    dsimp only
    rw [hB1c, hB1n]
  have hd1ch := firstSave_chats now db m hchat
  have hmeta : loadMessageMetadata (save_message now db m).2
      m.message_id m.chat_id = some (messagesRowOf now m) := by
    unfold loadMessageMetadata
    rw [hd1m, filter_messages_single now db m hmsg]
    rfl
  have hchatload : loadChatInfo (save_message now db m).2 m.chat_id =
      some ⟨m.chat_id, m.chat_type, m.title, m.description,
        m.invite_link, now, now⟩ := by
    unfold loadChatInfo
    rw [hd1ch, List.filter_append, hchat]
    simp
  have htypes : distinctContentTypes (save_message now db m).2
      m.message_id m.chat_id = ["video"] := by
    unfold distinctContentTypes
    rw [hd1c, List.filter_append, hcont']
    simp [blankContentRow, List.dedup]
  have hvideoload : VideoMessageDBHandler.load_content
      (save_message now db m).2 m.message_id m.chat_id =
      some (LoadedContent.videoDict v.caption (some v.file_id)
        (some v.file_unique_id) v.file_size
        (some (Int.ofNat v.width)) (some (Int.ofNat v.height))
        (some (Int.ofNat v.duration)) v.mime_type
        (v.thumbnail.map (fun th => th.file_id))
        (match v.video_bytes with
         | some b => if b.length > 50000000 then none else some b
         | none => none)
        m.media_group_id) := by
    unfold VideoMessageDBHandler.load_content
    rw [hd1c, List.filter_append]
    rw [filter_sub_nil (fun r =>
        decide (r.message_id = m.message_id ∧ r.chat_id = m.chat_id))
      _ db.message_contents (fun x hx => by
        have hh := of_decide_eq_true hx
        exact decide_eq_true ⟨hh.1, hh.2.1⟩) hcont']
    simp [blankContentRow]
  have hload : loadMessageContents (save_message now db m).2
      m.message_id m.chat_id =
      some [LoadedContent.videoDict v.caption (some v.file_id)
        (some v.file_unique_id) v.file_size
        (some (Int.ofNat v.width)) (some (Int.ofNat v.height))
        (some (Int.ofNat v.duration)) v.mime_type
        (v.thumbnail.map (fun th => th.file_id))
        (match v.video_bytes with
         | some b => if b.length > 50000000 then none else some b
         | none => none)
        m.media_group_id] := by
    unfold loadMessageContents
    rw [htypes]
    simp only [loadContentsLoop, handlerLoadContent, hvideoload]
    rfl
  unfold load_message
  rw [hmeta, hchatload, hload]
  rfl

/-- C3 (amended): `load_message` queries the distinct recorded content
types and dispatches each to its handler, and for TEXT and VIDEO the
handler field sets are symmetric, so a freshly saved one-item text or
video message reloads with exactly the saved fields; but the photo and
audio handlers implement no `loadContent`, so whenever a `'photo'` or
`'audio'` content type is recorded for a message, `load_message`
returns null — such messages cannot be reconstructed. -/
theorem c3_load_symmetry :
    (∀ (now : Int) (db : DBState) (m : NormalizedMessage)
       (t : TextContent), m.contents = [Content.text t] →
       messagesRowsFor db m.message_id m.chat_id = [] →
       contentRowsFor db m.message_id m.chat_id = [] →
       db.chats.filter (fun r => r.chat_id = m.chat_id) = [] →
       load_message (save_message now db m).2 m.message_id m.chat_id =
         some ⟨m.message_id, m.chat_id, m.chat_type, m.user_id, m.title,
               m.text, [LoadedContent.text ⟨t.text, t.caption⟩]⟩) ∧
    (∀ (now : Int) (db : DBState) (m : NormalizedMessage)
       (v : VideoContent), m.contents = [Content.video v] →
       messagesRowsFor db m.message_id m.chat_id = [] →
       contentRowsFor db m.message_id m.chat_id = [] →
       db.chats.filter (fun r => r.chat_id = m.chat_id) = [] →
       load_message (save_message now db m).2 m.message_id m.chat_id =
         some ⟨m.message_id, m.chat_id, m.chat_type, m.user_id, m.title,
               m.text,
               [LoadedContent.videoDict v.caption (some v.file_id)
                 (some v.file_unique_id) v.file_size
                 (some (Int.ofNat v.width)) (some (Int.ofNat v.height))
                 (some (Int.ofNat v.duration)) v.mime_type
                 (v.thumbnail.map (fun th => th.file_id))
                 (match v.video_bytes with
                  | some b => if b.length > 50000000 then none else some b
                  | none => none)
                 m.media_group_id]⟩) ∧
    (∀ (db : DBState) (mid cid : Int) (t : String),
       t ∈ distinctContentTypes db mid cid →
       t = "photo" ∨ t = "audio" →
       load_message db mid cid = none) :=
  ⟨text_roundtrip_aux, video_roundtrip_aux,
   fun db mid cid t ht hta =>
     load_message_none_of_missing_handler db mid cid t ht
       (by rcases hta with h | h <;> rw [h] <;> rfl)⟩

/-- Witness for C3 (amended): the fresh one-item text message reloads
with its text, and a recorded photo content type makes the load null. -/
theorem c3_load_symmetry_witness :
    ((sampleMsg [Content.text textSample]).contents =
       [Content.text textSample] ∧
     messagesRowsFor dbEmpty 1 100 = [] ∧
     contentRowsFor dbEmpty 1 100 = [] ∧
     dbEmpty.chats.filter (fun r => r.chat_id = (100 : Int)) = []) ∧
    load_message
      (save_message 0 dbEmpty (sampleMsg [Content.text textSample])).2
      1 100 =
      some ⟨1, 100, "channel", none, none, some "hello",
            [LoadedContent.text ⟨"hello", none⟩]⟩ :=
  ⟨⟨rfl, rfl, rfl, rfl⟩,
   c3_load_symmetry.1 0 dbEmpty (sampleMsg [Content.text textSample])
     textSample rfl rfl rfl rfl⟩
